import Mathlib

/-!
Shallow embedding of the `twitter-algo-analyzer` client core
(`src/twitter_client.py`, the data models of `src/models.py` it constructs,
and the cookie harvesting of `src/open_x_cdp.py`), together with theorems
settling the specification claims about it.

Conventions of the embedding:
- Python JSON-like values are the inductive `Json`; Python `dict.get`,
  truthiness and `in` are modelled by `Json.pyGet`, `Json.truthy` and
  `strContains` with Python semantics.
- A Python computation that can raise is a `PyResult`: `ok` is a normal
  return, `clientError msg` is a raised `TwitterClientError(msg)`,
  `valueError msg` a raised `ValueError(msg)`, and `crash` any other
  uncaught exception (`AttributeError`, `TypeError`, ...).
- The network is an oracle `outcomes : Nat → AttemptOutcome` giving, for each
  zero-indexed attempt, either a transport failure (`requests.Timeout` /
  `requests.ConnectionError`) or a delivered HTTP response; `time.sleep`
  calls are recorded as the list of slept durations.
- Wall-clock datetimes are abstracted to `Nat`; `dateutil.parser.parse` is an
  argument `parseDate : String → Option Nat` (`none` models a parse failure
  raising `ValueError`, which the client catches).
-/

/-- Model of a Python JSON-like value (the payloads exchanged with the bridge
and the cookie bundles loaded into the client). Numbers are integers, which
covers every numeric field the client reads. -/
inductive Json where
  | null : Json
  | bool (b : Bool) : Json
  | num (n : Int) : Json
  | str (s : String) : Json
  | arr (items : List Json) : Json
  | obj (fields : List (String × Json)) : Json

/-- Python truthiness of a JSON-like value: `None`, `False`, `0`, `""`, `[]`
and `{}` are falsy, everything else is truthy. -/
def Json.truthy : Json → Bool
  | .null => false
  | .bool b => b
  | .num n => n != 0
  | .str s => s != ""
  | .arr items => !items.isEmpty
  | .obj fields => !fields.isEmpty

/-- Python `d.get(key, default)`. Returns `none` (an `AttributeError`) when
the receiver is not a dict, mirroring that `.get` only exists on dicts. -/
def Json.pyGet : Json → String → Json → Option Json
  | .obj fields, key, dflt => some ((fields.lookup key).getD dflt)
  | _, _, _ => none

/-- Python `int(x)`-compatible reading used for `<` comparisons: ints are
themselves, bools compare as 0/1, anything else raises `TypeError` (`none`). -/
def Json.asNum : Json → Option Int
  | .num n => some n
  | .bool b => some (if b then 1 else 0)
  | _ => none

/-- Python substring membership over code points: `subIn sub l` is
`sub in l` for strings viewed as their character lists. -/
def subIn (sub : List Char) : List Char → Bool
  | [] => sub.isPrefixOf []
  | c :: t => sub.isPrefixOf (c :: t) || subIn sub t

/-- Python `sub in s` on strings. -/
def strContains (s sub : String) : Bool :=
  subIn sub.data s.data

/-- Python `sep.join(parts)`. -/
def pyJoin (sep : String) : List String → String
  | [] => ""
  | [x] => x
  | x :: y :: rest => x ++ sep ++ pyJoin sep (y :: rest)

mutual

/-- Python `repr` of a JSON-like value, as used when such values are rendered
inside container displays. -/
def Json.pyRepr : Json → String
  | .null => "None"
  | .bool true => "True"
  | .bool false => "False"
  | .num n => toString n
  | .str s => "\x27" ++ s ++ "\x27"
  | .arr items => "[" ++ pyJoin ", " (Json.pyReprList items) ++ "]"
  | .obj fields => "\x7b" ++ pyJoin ", " (Json.pyReprFields fields) ++ "\x7d"

/-- Renders each element of a JSON array with `Json.pyRepr`. -/
def Json.pyReprList : List Json → List String
  | [] => []
  | j :: rest => Json.pyRepr j :: Json.pyReprList rest

/-- Renders each `key: value` entry of a JSON object with `Json.pyRepr`. -/
def Json.pyReprFields : List (String × Json) → List String
  | [] => []
  | (k, v) :: rest => (Json.pyRepr (.str k) ++ ": " ++ Json.pyRepr v) :: Json.pyReprFields rest

end

/-- Python `str(x)` (f-string interpolation): strings render verbatim, other
values via their `repr`-like display. -/
def Json.pyStr : Json → String
  | .str s => s
  | j => Json.pyRepr j

/-- Result of running a piece of the Python client: a normal return, a raised
`TwitterClientError`, a raised `ValueError`, or any other uncaught
exception (`crash`). -/
inductive PyResult (α : Type) where
  | ok (a : α)
  | clientError (msg : String)
  | valueError (msg : String)
  | crash

/-- The five cookie names `TwitterClient.is_authenticated` requires
(`src/twitter_client.py:100`). -/
def required_cookies : List String :=
  ["auth_token", "ct0", "twid", "guest_id", "att"]

/-- Python truthiness of the optional `self.cookie_data` attribute
(`None` before `load_cookies`, else the loaded JSON-like bundle). -/
def cookieDataTruthy : Option Json → Bool
  | none => false
  | some j => j.truthy

/-- Model of `TwitterClient.get_essential_cookies`
(`src/twitter_client.py:68`): returns `{}` when no (truthy) bundle is
loaded, else `cookie_data.get("essentials", {})`. -/
def get_essential_cookies (cookie_data : Option Json) : Option Json :=
  if cookieDataTruthy cookie_data then
    match cookie_data with
    | some j => j.pyGet "essentials" (.obj [])
    | none => some (.obj [])
  else
    some (.obj [])

/-- Model of `TwitterClient.get_cookie_header` (`src/twitter_client.py:74`):
returns `""` when no (truthy) bundle is loaded, else
`cookie_data.get("cookieHeader", "")` verbatim — the header is NOT derived
from the essentials map. -/
def get_cookie_header (cookie_data : Option Json) : Option Json :=
  if cookieDataTruthy cookie_data then
    match cookie_data with
    | some j => j.pyGet "cookieHeader" (.str "")
    | none => some (.str "")
  else
    some (.str "")

/-- Model of `TwitterClient.is_authenticated` (`src/twitter_client.py:80`):
false without a truthy bundle; otherwise all five `required_cookies` must be
present in the essentials map with truthy values. A non-dict essentials
value makes the Python `essentials[cookie]` lookup raise (`none`). -/
def is_authenticated (cookie_data : Option Json) : Option Bool :=
  if cookieDataTruthy cookie_data then
    match get_essential_cookies cookie_data with
    | some (.obj fields) =>
        some (required_cookies.all fun c =>
          match fields.lookup c with
          | some v => v.truthy
          | none => false)
    | some _ => none
    | none => none
  else
    some false

/-- Message of the structural authentication failure raised by
`TwitterClient._check_authentication` (`src/twitter_client.py:108`). -/
def authMissingMsg : String :=
  "Authentication cookies missing: expected \x27cookieHeader\x27 and \x27essentials\x27"

/-- Message of the deeper authentication failure raised by
`TwitterClient._check_authentication` (`src/twitter_client.py:123`). -/
def authInvalidMsg : String :=
  "Authentication cookies invalid or incomplete; see is_authenticated() docstring for required set"

/-- Model of `TwitterClient._check_authentication`
(`src/twitter_client.py:104`): raises `authMissingMsg` when no truthy bundle
is loaded, when `cookieHeader`/`essentials` keys are absent, or when either
value is falsy; raises `authInvalidMsg` when `is_authenticated()` is false;
otherwise returns normally. A loaded non-dict bundle makes the Python `in`
checks and `.get` calls misbehave and is modelled as a crash. -/
def check_authentication (cookie_data : Option Json) : PyResult Unit :=
  if cookieDataTruthy cookie_data then
    match cookie_data with
    | some (.obj fields) =>
        if ((fields.lookup "cookieHeader").isSome && (fields.lookup "essentials").isSome) then
          let cookie_header := (fields.lookup "cookieHeader").getD (.str "")
          let essentials := (fields.lookup "essentials").getD (.obj [])
          if (cookie_header.truthy && essentials.truthy) then
            match is_authenticated cookie_data with
            | some true => .ok ()
            | some false => .clientError authInvalidMsg
            | none => .crash
          else
            .clientError authMissingMsg
        else
          .clientError authMissingMsg
    | _ => .crash
  else
    .clientError authMissingMsg

/-- An HTTP response as `requests` hands it to `_handle_response`:
status code, the result of `response.json()` (`none` = `json.JSONDecodeError`),
the reason phrase and the raw body text. -/
structure Response where
  status_code : Nat
  jsonBody : Option Json
  reason : String
  text : String

/-- Model of `TwitterClient._handle_response` (`src/twitter_client.py:178`).
Status `>= 400`: with parseable JSON, raise
`"HTTP {status}: {error.code} - {error.message}"` (defaults `UNKNOWN` /
`Unknown error`); without, raise `"HTTP {status}: {reason}"`.
Status `< 400`: unparseable body raises `"Invalid response format: {text}"`;
a falsy `success` flag maps `error.code` to the four application errors;
otherwise the parsed body is returned. Non-dict shapes where Python would
raise `AttributeError`/`TypeError` are `crash`. -/
def handle_response (r : Response) : PyResult Json :=
  if 400 ≤ r.status_code then
    match r.jsonBody with
    | some data =>
        match data.pyGet "error" (.obj []) with
        | none => .crash
        | some error =>
            match error.pyGet "code" (.str "UNKNOWN"), error.pyGet "message" (.str "Unknown error") with
            | some code, some message =>
                .clientError ("HTTP " ++ toString r.status_code ++ ": " ++
                  code.pyStr ++ " - " ++ message.pyStr)
            | _, _ => .crash
    | none => .clientError ("HTTP " ++ toString r.status_code ++ ": " ++ r.reason)
  else
    match r.jsonBody with
    | none => .clientError ("Invalid response format: " ++ r.text)
    | some data =>
        match data.pyGet "success" (.bool false) with
        | none => .crash
        | some successFlag =>
            if successFlag.truthy then
              .ok data
            else
              match data.pyGet "error" (.obj []) with
              | none => .crash
              | some error =>
                  match error.pyGet "code" (.str "UNKNOWN"), error.pyGet "message" (.str "Unknown error") with
                  | some (.str code), some message =>
                      if strContains code "AUTHENTICATION" then
                        .clientError ("Authentication error: " ++ message.pyStr)
                      else if code = "NOT_FOUND" then
                        .clientError ("Resource not found: " ++ message.pyStr)
                      else if code = "RATE_LIMITED" then
                        .clientError ("Rate limit exceeded: " ++ message.pyStr)
                      else
                        .clientError ("API error (" ++ code ++ "): " ++ message.pyStr)
                  | some _, some _ => .crash
                  | _, _ => .crash

/-- What the network yields for one attempt inside `_make_request`:
a `requests.Timeout`, a `requests.ConnectionError`, or a delivered response. -/
inductive AttemptOutcome where
  | timeout
  | connectionError
  | response (r : Response)

/-- Observable run of `_make_request`: its result, the backoff durations
passed to `time.sleep` in order, and how many attempts executed a request. -/
structure RunOut where
  result : PyResult Json
  sleeps : List Nat
  attempts : Nat

/-- The three substrings whose presence in a `TwitterClientError` message
makes the retry loop treat it as transient (`src/twitter_client.py:168`). -/
def transient_status_markers : List String :=
  ["HTTP 502:", "HTTP 503:", "HTTP 504:"]

/-- Model of `any(status in error_msg for status in [...])`
(`src/twitter_client.py:168`): the transiency test is a SUBSTRING test on the
error message, not a test of the response status code. -/
def is_transient_msg (msg : String) : Bool :=
  transient_status_markers.any fun s => strContains msg s

/-- Model of the `for attempt in range(max_retries)` loop of
`TwitterClient._make_request` (`src/twitter_client.py:138`). The fuel
argument is `max_retries - attempt`, so `attempt == max_retries - 1` inside
the loop becomes `remaining = 0` here. Transport failures and classified
errors whose message passes `is_transient_msg` sleep `backoff_base ^ attempt`
and retry unless on the final attempt; every other classified error is
re-raised immediately. Falling out of the loop raises
`"Max retries exceeded"`. With the session closed (`has_session = false`),
touching `self.session` raises `AttributeError` before any network call. -/
def request_loop (has_session : Bool) (outcomes : Nat → AttemptOutcome)
    (backoff_base : Nat) : Nat → Nat → RunOut
  | 0, _ => ⟨.clientError "Max retries exceeded", [], 0⟩
  | remaining + 1, attempt =>
    if has_session then
      match outcomes attempt with
      | .timeout =>
        if remaining = 0 then
          ⟨.clientError "Request timeout - bridge may be unavailable", [], 1⟩
        else
          let rest := request_loop has_session outcomes backoff_base remaining (attempt + 1)
          ⟨rest.result, backoff_base ^ attempt :: rest.sleeps, rest.attempts + 1⟩
      | .connectionError =>
        if remaining = 0 then
          ⟨.clientError "Connection error - unable to reach bridge", [], 1⟩
        else
          let rest := request_loop has_session outcomes backoff_base remaining (attempt + 1)
          ⟨rest.result, backoff_base ^ attempt :: rest.sleeps, rest.attempts + 1⟩
      | .response r =>
        match handle_response r with
        | .ok payload => ⟨.ok payload, [], 1⟩
        | .clientError msg =>
          if is_transient_msg msg then
            if remaining = 0 then
              ⟨.clientError msg, [], 1⟩
            else
              let rest := request_loop has_session outcomes backoff_base remaining (attempt + 1)
              ⟨rest.result, backoff_base ^ attempt :: rest.sleeps, rest.attempts + 1⟩
          else
            ⟨.clientError msg, [], 1⟩
        | .valueError msg => ⟨.valueError msg, [], 1⟩
        | .crash => ⟨.crash, [], 1⟩
    else
      ⟨.crash, [], 0⟩

/-- The configuration attributes `_make_request` reads. `timeout_seconds`
and `base_url` only shape the individual HTTP call, which the attempt oracle
abstracts, so they are not carried here. -/
structure ApiConfig where
  max_retries : Nat
  backoff_base : Nat

/-- Model of `TwitterClient._make_request` (`src/twitter_client.py:125`):
the authentication gate runs first and, on failure, nothing is attempted
(zero attempts, no sleeps); otherwise the retry loop runs with the
configured `max_retries` starting from attempt 0. -/
def make_request (cookie_data : Option Json) (has_session : Bool)
    (cfg : ApiConfig) (outcomes : Nat → AttemptOutcome) : RunOut :=
  match check_authentication cookie_data with
  | .ok _ => request_loop has_session outcomes cfg.backoff_base cfg.max_retries 0
  | .clientError msg => ⟨.clientError msg, [], 0⟩
  | .valueError msg => ⟨.valueError msg, [], 0⟩
  | .crash => ⟨.crash, [], 0⟩

/-- Model of `TwitterClient.close` (`src/twitter_client.py:58`): the
`hasattr(self, "session")` guard makes a second close a silent no-op — the
function returns normally whether or not the session attribute is present. -/
def close (session : Option Unit) : PyResult (Option Unit) :=
  match session with
  | some _ => .ok none
  | none => .ok none

/-- The `EngagementMetrics` dataclass of `src/models.py:16` after its
validation has passed (all four counters are integers, checked non-negative
at construction). -/
structure EngagementMetrics where
  likes : Int
  retweets : Int
  replies : Int
  views : Int
deriving DecidableEq

/-- Model of `EngagementMetrics.__post_init__` (`src/models.py:24`):
`any(value < 0 for value in [likes, retweets, replies, views])` evaluated
lazily in order — the first non-numeric value raises `TypeError` (`crash`),
the first negative one raises the `ValueError`. -/
def checkNonNeg : List Json → PyResult (List Int)
  | [] => .ok []
  | j :: rest =>
    match j.asNum with
    | none => .crash
    | some n =>
      if n < 0 then .valueError "Engagement metrics cannot be negative"
      else
        match checkNonNeg rest with
        | .ok ns => .ok (n :: ns)
        | .clientError m => .clientError m
        | .valueError m => .valueError m
        | .crash => .crash

/-- Model of `TwitterClient._normalize_engagement`
(`src/twitter_client.py:294`) composed with the `EngagementMetrics`
validation: each counter defaults to 0 when absent. -/
def normalize_engagement (engagement_data : Json) : PyResult EngagementMetrics :=
  match engagement_data.pyGet "likes" (.num 0),
        engagement_data.pyGet "retweets" (.num 0),
        engagement_data.pyGet "replies" (.num 0),
        engagement_data.pyGet "views" (.num 0) with
  | some likes, some retweets, some replies, some views =>
    match checkNonNeg [likes, retweets, replies, views] with
    | .ok [l, rt, rp, v] => .ok ⟨l, rt, rp, v⟩
    | .ok _ => .crash
    | .clientError m => .clientError m
    | .valueError m => .valueError m
    | .crash => .crash
  | _, _, _, _ => .crash

/-- The `Profile` dataclass of `src/models.py:86` as `_normalize_user` fills
it. The dataclass has no validation, so raw JSON values are stored verbatim;
`join_date` is the parsed timestamp or `none`. -/
structure Profile where
  id : Json
  username : Json
  display_name : Json
  bio : Json
  avatar : Json
  verified : Json
  followers : Json
  following : Json
  location : Json
  url : Json
  join_date : Option Nat
  tweet_count : Json
  pinned_tweet : Json

/-- Model of `TwitterClient._normalize_user` (`src/twitter_client.py:269`):
`joinDate` is parsed only when present; a missing key, a parse failure
(`ValueError`) or a non-string value (`TypeError`) all leave `join_date`
unset because both exceptions are caught and passed. Every other field is a
defaulted `get`. A non-dict mapping crashes on the `in` / `.get` calls. -/
def normalize_user (parseDate : String → Option Nat) (user_data : Json) : PyResult Profile :=
  match user_data with
  | .obj fields =>
    let join_date :=
      match fields.lookup "joinDate" with
      | some (.str s) => parseDate s
      | some _ => none
      | none => none
    .ok
      { id := (fields.lookup "id").getD (.str "")
        username := (fields.lookup "username").getD (.str "")
        display_name := (fields.lookup "displayName").getD (.str "")
        bio := (fields.lookup "bio").getD (.str "")
        avatar := (fields.lookup "avatar").getD .null
        verified := (fields.lookup "verified").getD (.bool false)
        followers := (fields.lookup "followers").getD (.num 0)
        following := (fields.lookup "following").getD (.num 0)
        location := (fields.lookup "location").getD .null
        url := (fields.lookup "url").getD .null
        join_date := join_date
        tweet_count := (fields.lookup "tweetCount").getD (.num 0)
        pinned_tweet := (fields.lookup "pinnedTweet").getD .null }
  | _ => .crash

/-- The lexical `ContentFeatures` the client computes
(`src/twitter_client.py:240`, dataclass at `src/models.py:41`). The
`sentiment` / `topics` / `language` fields keep their dataclass defaults in
this code path, which pass the sentiment validation. -/
structure ContentFeatures where
  has_question : Bool
  has_media : Bool
  has_links : Bool
  has_hashtags : Bool
  has_mentions : Bool
  length : Nat
  word_count : Nat
  sentiment : String := "neutral"
  topics : List Json := []
  language : String := "en"

/-- Python `len(text.split())`: whitespace-separated word count. -/
def pyWordCount (s : String) : Nat :=
  ((s.split fun c => c.isWhitespace).filter fun w => w != "").length

/-- The `Tweet` dataclass of `src/models.py:165` as `_normalize_tweet` fills
it: `text` is a string (a non-string raw text crashes the feature
computation), `created_at` an abstract timestamp, the untyped passthrough
fields stay raw JSON. -/
structure Tweet where
  id : Json
  text : String
  user : Profile
  created_at : Nat
  engagement : EngagementMetrics
  features : ContentFeatures
  urls : Json
  hashtags : Json
  mentions : Json
  media : Json
  is_retweet : Json
  is_reply : Json
  is_thread : Json
  thread_position : Json
  quoted_tweet : Json
  retweeted_tweet : Json

/-- Model of `TwitterClient._normalize_tweet` (`src/twitter_client.py:220`).
Order follows the source: normalize the (defaulted) user, then engagement,
then parse `createdAt` — a missing key, falsy value, non-string value
(`TypeError`, caught) or parse failure (`ValueError`, caught) all yield the
current time `now` — then compute the lexical features from the raw `text`
and `media` and assemble the `Tweet` with defaulted passthrough fields.
The upstream `features` key is never read. -/
def normalize_tweet (parseDate : String → Option Nat) (now : Nat)
    (tweet_data : Json) : PyResult Tweet :=
  match tweet_data with
  | .obj fields =>
    match normalize_user parseDate ((fields.lookup "user").getD (.obj [])) with
    | .ok user =>
      match normalize_engagement ((fields.lookup "engagement").getD (.obj [])) with
      | .ok engagement =>
        let created_at :=
          match fields.lookup "createdAt" with
          | some j =>
            if j.truthy then
              match j with
              | .str s => (parseDate s).getD now
              | _ => now
            else now
          | none => now
        match (fields.lookup "text").getD (.str "") with
        | .str text =>
          let features : ContentFeatures :=
            { length := text.length
              word_count := pyWordCount text
              has_question := strContains text "?"
              has_media := ((fields.lookup "media").getD (.arr [])).truthy
              has_hashtags := strContains text "#"
              has_mentions := strContains text "@"
              has_links := strContains text.toLower "http" }
          .ok
            { id := (fields.lookup "id").getD (.str "")
              text := text
              user := user
              created_at := created_at
              engagement := engagement
              features := features
              urls := (fields.lookup "urls").getD (.arr [])
              hashtags := (fields.lookup "hashtags").getD (.arr [])
              mentions := (fields.lookup "mentions").getD (.arr [])
              media := (fields.lookup "media").getD (.arr [])
              is_retweet := (fields.lookup "isRetweet").getD (.bool false)
              is_reply := (fields.lookup "isReply").getD (.bool false)
              is_thread := (fields.lookup "isThread").getD (.bool false)
              thread_position := (fields.lookup "threadPosition").getD .null
              quoted_tweet := (fields.lookup "quotedTweet").getD .null
              retweeted_tweet := (fields.lookup "retweetedTweet").getD .null }
        | _ => .crash
      | .clientError m => .clientError m
      | .valueError m => .valueError m
      | .crash => .crash
    | .clientError m => .clientError m
    | .valueError m => .valueError m
    | .crash => .crash
  | _ => .crash

/-- The list comprehension of `TwitterClient.get_timeline`
(`src/twitter_client.py:309`): normalize each raw record, propagating the
first exception. -/
def normalize_tweet_list (parseDate : String → Option Nat) (now : Nat) :
    List Json → PyResult (List Tweet)
  | [] => .ok []
  | j :: rest =>
    match normalize_tweet parseDate now j with
    | .ok t =>
      match normalize_tweet_list parseDate now rest with
      | .ok ts => .ok (t :: ts)
      | .clientError m => .clientError m
      | .valueError m => .valueError m
      | .crash => .crash
    | .clientError m => .clientError m
    | .valueError m => .valueError m
    | .crash => .crash

/-- Model of `TwitterClient.get_timeline` (`src/twitter_client.py:305`):
`_make_request`, then `data.get("data", [])`, then normalize each element.
Iterating a non-list `data` value makes the comprehension crash. -/
def get_timeline (parseDate : String → Option Nat) (now : Nat)
    (cookie_data : Option Json) (has_session : Bool) (cfg : ApiConfig)
    (outcomes : Nat → AttemptOutcome) : PyResult (List Tweet) :=
  match (make_request cookie_data has_session cfg outcomes).result with
  | .ok data =>
    match data.pyGet "data" (.arr []) with
    | some (.arr items) => normalize_tweet_list parseDate now items
    | some _ => .crash
    | none => .crash
  | .clientError m => .clientError m
  | .valueError m => .valueError m
  | .crash => .crash

/-- The filtering at the top of the harvesting loop in
`open_x_cdp._collect_twitter_tokens` (`src/open_x_cdp.py:159`): skip entries
that are not dicts or whose `name`/`value` are not both strings. -/
def cookiePairs : List Json → List (String × String)
  | [] => []
  | .obj fields :: rest =>
    match fields.lookup "name", fields.lookup "value" with
    | some (.str n), some (.str v) => (n, v) :: cookiePairs rest
    | _, _ => cookiePairs rest
  | _ :: rest => cookiePairs rest

/-- The accumulation in `open_x_cdp._collect_twitter_tokens`
(`src/open_x_cdp.py:183`): the first occurrence of each cookie name is
recorded in `cookie_lookup` and its `name=value` string appended to
`header_parts`; later duplicates are skipped. -/
def harvestAcc (seen : List (String × String)) (parts : List String) :
    List (String × String) → List (String × String) × List String
  | [] => (seen, parts)
  | (n, v) :: rest =>
    if (seen.lookup n).isSome then
      harvestAcc seen parts rest
    else
      harvestAcc (seen ++ [(n, v)]) (parts ++ [n ++ "=" ++ v]) rest

/-- The `cookieHeader` field of the bundle built by
`open_x_cdp._collect_twitter_tokens` (`src/open_x_cdp.py:195`):
`"; ".join(header_parts)`. -/
def harvestHeader (cookies : List Json) : String :=
  pyJoin "; " (harvestAcc [] [] (cookiePairs cookies)).2

/-- The `essentials` field of the bundle built by
`open_x_cdp._collect_twitter_tokens` (`src/open_x_cdp.py:187`): the five
required keys that appear in `cookie_lookup`, with their values. -/
def harvestEssentials (cookies : List Json) : List (String × String) :=
  required_cookies.filterMap fun k =>
    ((harvestAcc [] [] (cookiePairs cookies)).1.lookup k).map fun v => (k, v)
/-- A list is a prefix of itself followed by anything. -/
theorem isPrefixOf_self_append : ∀ (l rest : List Char), l.isPrefixOf (l ++ rest) = true
  | [], _ => by simp [List.isPrefixOf]
  | a :: as, rest => by
    simp [List.isPrefixOf, isPrefixOf_self_append as rest]

/-- A list is a prefix of itself. -/
theorem isPrefixOf_refl (l : List Char) : l.isPrefixOf l = true := by
  have h := isPrefixOf_self_append l []
  rwa [List.append_nil] at h

/-- A prefix occurs as a substring. -/
theorem subIn_of_isPrefixOf {sub l : List Char} (h : sub.isPrefixOf l = true) :
    subIn sub l = true := by
  cases l with
  | nil => simpa [subIn] using h
  | cons c t => simp [subIn, h]

/-- Substring occurrence is preserved by prepending. -/
theorem subIn_append_left {sub l : List Char} (pre : List Char)
    (h : subIn sub l = true) : subIn sub (pre ++ l) = true := by
  induction pre with
  | nil => simpa using h
  | cons c cs ih => simp [subIn, ih]

/-- Python `sub in (sub + rest)` holds. -/
theorem strContains_append_self (sub rest : String) :
    strContains (sub ++ rest) sub = true := by
  unfold strContains
  rw [String.data_append]
  exact subIn_of_isPrefixOf (isPrefixOf_self_append sub.data rest.data)

/-- Every element of a joined list occurs as a substring of the join. -/
theorem strContains_pyJoin_of_mem (sep : String) :
    ∀ (parts : List String) (x : String), x ∈ parts →
      strContains (pyJoin sep parts) x = true := by
  intro parts
  induction parts with
  | nil =>
    intro x hx
    exact absurd hx (List.not_mem_nil x)
  | cons a rest ih =>
    intro x hx
    rcases List.mem_cons.mp hx with rfl | hmem
    · cases rest with
      | nil =>
        show subIn x.data (pyJoin sep [x]).data = true
        exact subIn_of_isPrefixOf (isPrefixOf_refl x.data)
      | cons b more =>
        show subIn x.data ((x ++ sep ++ pyJoin sep (b :: more)).data) = true
        rw [String.data_append, String.data_append, List.append_assoc]
        exact subIn_of_isPrefixOf (isPrefixOf_self_append x.data _)
    · cases rest with
      | nil => exact absurd hmem (List.not_mem_nil x)
      | cons b more =>
        show subIn x.data ((a ++ sep ++ pyJoin sep (b :: more)).data) = true
        rw [String.data_append]
        exact subIn_append_left _ (ih x hmem)

/-- Strings whose first characters differ are different, even after extending
the first one. -/
theorem append_ne_of_head_ne (p s t : String) (hp : p.data ≠ [])
    (h : p.data.head? ≠ t.data.head?) : p ++ s ≠ t := by
  intro he
  apply h
  have hd : (p ++ s).data = t.data := by rw [he]
  rw [String.data_append] at hd
  rw [← hd]
  cases hpd : p.data with
  | nil => exact absurd hpd hp
  | cons c cs => simp

/-- The JSON error envelope shape `{success, error: {code, message}}` the
bridge sends (spec §6). -/
def errEnvelope (success : Json) (code message : String) : Json :=
  .obj [("success", success),
        ("error", .obj [("code", .str code), ("message", .str message)])]

/-- C4: for every HTTP response, `_handle_response` classifies exactly as
specified: status ≥ 400 with a parseable JSON error envelope raises the
`HttpError` message `"HTTP {status}: {code} - {message}"`; status ≥ 400 with
a non-JSON body raises `"HTTP {status}: {reason}"`; status < 400 with a
non-JSON body raises the `MalformedResponse` message
`"Invalid response format: {text}"`; status < 400 with valid JSON whose
`success` flag is falsy maps `error.code` to `AuthenticationRejected`
(code contains `AUTHENTICATION`), `ResourceNotFound` (`NOT_FOUND`),
`RateLimited` (`RATE_LIMITED`) or the generic `ApiError(code, message)`; and
otherwise the parsed JSON body is returned as the success payload. -/
theorem C4_response_classification :
    (∀ (st : Nat) (code message reason text : String), 400 ≤ st →
      handle_response ⟨st, some (errEnvelope (.bool false) code message), reason, text⟩
        = .clientError ("HTTP " ++ toString st ++ ": " ++ code ++ " - " ++ message)) ∧
    (∀ (st : Nat) (reason text : String), 400 ≤ st →
      handle_response ⟨st, none, reason, text⟩
        = .clientError ("HTTP " ++ toString st ++ ": " ++ reason)) ∧
    (∀ (st : Nat) (reason text : String), st < 400 →
      handle_response ⟨st, none, reason, text⟩
        = .clientError ("Invalid response format: " ++ text)) ∧
    (∀ (st : Nat) (reason text : String) (success : Json) (code message : String),
      st < 400 → success.truthy = false →
      handle_response ⟨st, some (errEnvelope success code message), reason, text⟩
        = (if strContains code "AUTHENTICATION" then
             .clientError ("Authentication error: " ++ message)
           else if code = "NOT_FOUND" then
             .clientError ("Resource not found: " ++ message)
           else if code = "RATE_LIMITED" then
             .clientError ("Rate limit exceeded: " ++ message)
           else
             .clientError ("API error (" ++ code ++ "): " ++ message))) ∧
    (∀ (st : Nat) (reason text : String) (data successFlag : Json),
      st < 400 → data.pyGet "success" (.bool false) = some successFlag →
      successFlag.truthy = true →
      handle_response ⟨st, some data, reason, text⟩ = .ok data) := by
  refine ⟨?_, ?_, ?_, ?_, ?_⟩
  · intro st code message reason text h
    unfold handle_response
    rw [if_pos h]
    rfl
  · intro st reason text h
    unfold handle_response
    rw [if_pos h]
  · intro st reason text h
    unfold handle_response
    rw [if_neg (Nat.not_le.mpr h)]
  · intro st reason text success code message h hs
    unfold handle_response
    rw [if_neg (Nat.not_le.mpr h)]
    show (if success.truthy = true then _ else _) = _
    rw [hs]
    simp only [Bool.false_eq_true, if_false]
    rfl
  · intro st reason text data successFlag h hget ht
    unfold handle_response
    rw [if_neg (Nat.not_le.mpr h)]
    show (match data.pyGet "success" (.bool false) with
      | none => PyResult.crash
      | some successFlag =>
          if successFlag.truthy then PyResult.ok data
          else match data.pyGet "error" (.obj []) with
          | none => PyResult.crash
          | some error =>
              match error.pyGet "code" (.str "UNKNOWN"), error.pyGet "message" (.str "Unknown error") with
              | some (.str code), some message =>
                  if strContains code "AUTHENTICATION" then
                    .clientError ("Authentication error: " ++ message.pyStr)
                  else if code = "NOT_FOUND" then
                    .clientError ("Resource not found: " ++ message.pyStr)
                  else if code = "RATE_LIMITED" then
                    .clientError ("Rate limit exceeded: " ++ message.pyStr)
                  else
                    .clientError ("API error (" ++ code ++ "): " ++ message.pyStr)
              | some _, some _ => PyResult.crash
              | _, _ => PyResult.crash) = PyResult.ok data
    rw [hget]
    show (if successFlag.truthy = true then _ else _) = _
    rw [ht]
    simp

/-- Witness for C4 at a concrete 404 response with a JSON error envelope. -/
theorem C4_response_classification_witness :
    400 ≤ 404 ∧
    handle_response ⟨404, some (errEnvelope (.bool false) "NOT_FOUND" "gone"), "Not Found", ""⟩
      = .clientError "HTTP 404: NOT_FOUND - gone" :=
  ⟨by decide, C4_response_classification.1 404 "NOT_FOUND" "gone" "Not Found" "" (by decide)⟩
/-- An authentication-gate failure short-circuits `_make_request` before the
retry loop: the raised message is surfaced with zero attempts and no sleeps. -/
theorem make_request_of_check_err {cookie_data : Option Json} {m : String}
    (hs : Bool) (cfg : ApiConfig) (outcomes : Nat → AttemptOutcome)
    (h : check_authentication cookie_data = .clientError m) :
    make_request cookie_data hs cfg outcomes = ⟨.clientError m, [], 0⟩ := by
  unfold make_request
  rw [h]

/-- When the authentication gate passes, `_make_request` is exactly the retry
loop started at attempt 0. -/
theorem make_request_of_check_ok {cookie_data : Option Json}
    (hs : Bool) (cfg : ApiConfig) (outcomes : Nat → AttemptOutcome)
    (h : check_authentication cookie_data = .ok ()) :
    make_request cookie_data hs cfg outcomes
      = request_loop hs outcomes cfg.backoff_base cfg.max_retries 0 := by
  unfold make_request
  rw [h]

/-- Unfolding of `get_essential_cookies` on a loaded truthy dict bundle. -/
theorem get_essential_cookies_obj {fields : List (String × Json)}
    (ht : cookieDataTruthy (some (.obj fields)) = true) :
    get_essential_cookies (some (.obj fields))
      = some ((fields.lookup "essentials").getD (.obj [])) := by
  unfold get_essential_cookies
  rw [if_pos ht]
  rfl

/-- Unfolding of `is_authenticated` on a loaded truthy dict bundle. -/
theorem is_authenticated_obj {fields : List (String × Json)}
    (ht : cookieDataTruthy (some (.obj fields)) = true) :
    is_authenticated (some (.obj fields))
      = (match (fields.lookup "essentials").getD (.obj []) with
         | .obj efields =>
             some (required_cookies.all fun c =>
               match efields.lookup c with
               | some v => v.truthy
               | none => false)
         | _ => none) := by
  unfold is_authenticated
  rw [if_pos ht, get_essential_cookies_obj ht]
  cases hgd : (fields.lookup "essentials").getD (.obj []) <;> rfl

/-- Unfolding of `_check_authentication` on a loaded truthy dict bundle. -/
theorem check_authentication_obj {fields : List (String × Json)}
    (ht : cookieDataTruthy (some (.obj fields)) = true) :
    check_authentication (some (.obj fields))
      = (if ((fields.lookup "cookieHeader").isSome && (fields.lookup "essentials").isSome) then
           (if (((fields.lookup "cookieHeader").getD (.str "")).truthy &&
                ((fields.lookup "essentials").getD (.obj [])).truthy) then
              (match is_authenticated (some (.obj fields)) with
               | some true => PyResult.ok ()
               | some false => .clientError authInvalidMsg
               | none => .crash)
            else .clientError authMissingMsg)
         else .clientError authMissingMsg) := by
  unfold check_authentication
  rw [if_pos ht]

/-- A dict-shaped bundle failing `is_authenticated` makes
`_check_authentication` raise one of its two messages. -/
theorem check_authentication_err_of_not_auth {fields : List (String × Json)}
    (h : is_authenticated (some (.obj fields)) = some false) :
    check_authentication (some (.obj fields)) = .clientError authMissingMsg ∨
    check_authentication (some (.obj fields)) = .clientError authInvalidMsg := by
  by_cases ht : cookieDataTruthy (some (.obj fields)) = true
  · rw [check_authentication_obj ht]
    by_cases hk : ((fields.lookup "cookieHeader").isSome && (fields.lookup "essentials").isSome) = true
    · rw [if_pos hk]
      by_cases htr : (((fields.lookup "cookieHeader").getD (.str "")).truthy &&
          ((fields.lookup "essentials").getD (.obj [])).truthy) = true
      · rw [if_pos htr, h]
        right
        rfl
      · rw [if_neg htr]
        left
        rfl
    · rw [if_neg hk]
      left
      rfl
  · left
    unfold check_authentication
    rw [if_neg ht]

/-- C2: with a loaded dict bundle whose essentials map misses one of the five
required cookies or binds it to a falsy (e.g. empty) value,
`is_authenticated()` is false and every `_make_request` call fails at the
authentication gate with one of the two authentication error messages, with
zero attempts executed and no sleeps — before any network activity;
conversely, with a truthy `cookieHeader`, a dict `essentials` and truthy
values for all five required cookies, `is_authenticated()` is true, the gate
passes, and `_make_request` proceeds into the retry loop. -/
theorem C2_authentication_gate :
    (∀ (fields efields : List (String × Json)) (k : String),
      (Json.obj fields).pyGet "essentials" (.obj []) = some (.obj efields) →
      k ∈ required_cookies →
      (efields.lookup k = none ∨ ∃ v, efields.lookup k = some v ∧ v.truthy = false) →
      is_authenticated (some (.obj fields)) = some false ∧
      ∀ (hs : Bool) (cfg : ApiConfig) (outcomes : Nat → AttemptOutcome),
        make_request (some (.obj fields)) hs cfg outcomes = ⟨.clientError authMissingMsg, [], 0⟩ ∨
        make_request (some (.obj fields)) hs cfg outcomes = ⟨.clientError authInvalidMsg, [], 0⟩) ∧
    (∀ (fields efields : List (String × Json)) (header : Json),
      fields.lookup "cookieHeader" = some header → header.truthy = true →
      fields.lookup "essentials" = some (.obj efields) →
      (∀ k ∈ required_cookies, ∃ v, efields.lookup k = some v ∧ v.truthy = true) →
      is_authenticated (some (.obj fields)) = some true ∧
      check_authentication (some (.obj fields)) = .ok () ∧
      ∀ (hs : Bool) (cfg : ApiConfig) (outcomes : Nat → AttemptOutcome),
        make_request (some (.obj fields)) hs cfg outcomes
          = request_loop hs outcomes cfg.backoff_base cfg.max_retries 0) := by
  constructor
  · intro fields efields k hget hk hbad
    have hgetD : (fields.lookup "essentials").getD (.obj []) = .obj efields :=
      Option.some.inj hget
    have hauth : is_authenticated (some (.obj fields)) = some false := by
      by_cases ht : cookieDataTruthy (some (.obj fields)) = true
      · rw [is_authenticated_obj ht, hgetD]
        show some (required_cookies.all fun c =>
          match efields.lookup c with
          | some v => v.truthy
          | none => false) = some false
        congr 1
        rcases Bool.eq_false_or_eq_true (required_cookies.all fun c =>
            match efields.lookup c with
            | some v => v.truthy
            | none => false) with htr | hf
        · exfalso
          have hkk := List.all_eq_true.mp htr k hk
          rcases hbad with hnone | ⟨v, hv, hfalse⟩
          · rw [hnone] at hkk
            exact Bool.false_ne_true hkk
          · have hvt : v.truthy = true := by
              rw [hv] at hkk
              exact hkk
            rw [hfalse] at hvt
            exact Bool.false_ne_true hvt
        · exact hf
      · unfold is_authenticated
        rw [if_neg ht]
    refine ⟨hauth, ?_⟩
    intro hs cfg outcomes
    rcases check_authentication_err_of_not_auth hauth with hc | hc
    · exact Or.inl (make_request_of_check_err hs cfg outcomes hc)
    · exact Or.inr (make_request_of_check_err hs cfg outcomes hc)
  · intro fields efields header hheader htruthy hess hall
    have hne : fields ≠ [] := by
      intro hnil
      rw [hnil] at hheader
      exact Option.noConfusion hheader
    have ht : cookieDataTruthy (some (.obj fields)) = true := by
      unfold cookieDataTruthy Json.truthy
      cases fields with
      | nil => exact absurd rfl hne
      | cons f fs => rfl
    have hene : efields ≠ [] := by
      intro hnil
      have hat := hall "auth_token" (by decide)
      rw [hnil] at hat
      rcases hat with ⟨v, hv, _⟩
      exact Option.noConfusion hv
    have hetruthy : (Json.obj efields).truthy = true := by
      unfold Json.truthy
      cases efields with
      | nil => exact absurd rfl hene
      | cons e es => rfl
    have hauth : is_authenticated (some (.obj fields)) = some true := by
      rw [is_authenticated_obj ht, hess]
      show some (required_cookies.all fun c =>
        match efields.lookup c with
        | some v => v.truthy
        | none => false) = some true
      congr 1
      apply List.all_eq_true.mpr
      intro k hk
      rcases hall k hk with ⟨v, hv, hvt⟩
      rw [hv]
      exact hvt
    have hcheck : check_authentication (some (.obj fields)) = .ok () := by
      rw [check_authentication_obj ht, hheader, hess]
      simp [htruthy, hetruthy, hauth]
    exact ⟨hauth, hcheck, fun hs cfg outcomes => make_request_of_check_ok hs cfg outcomes hcheck⟩

/-- Witness for C2: a bundle missing the `ct0` essential fails the gate with
zero attempts; a complete bundle passes into the retry loop. -/
theorem C2_authentication_gate_witness :
    (is_authenticated (some (.obj [("cookieHeader", Json.str "x=y"),
        ("essentials", Json.obj [("auth_token", Json.str "a")])])) = some false) ∧
    (make_request (some (.obj [("cookieHeader", Json.str "x=y"),
        ("essentials", Json.obj [("auth_token", Json.str "a")])])) true ⟨3, 2⟩
        (fun _ => .timeout) = ⟨.clientError authMissingMsg, [], 0⟩ ∨
     make_request (some (.obj [("cookieHeader", Json.str "x=y"),
        ("essentials", Json.obj [("auth_token", Json.str "a")])])) true ⟨3, 2⟩
        (fun _ => .timeout) = ⟨.clientError authInvalidMsg, [], 0⟩) ∧
    (is_authenticated (some (.obj [("cookieHeader", Json.str "x=y"),
        ("essentials", Json.obj [("auth_token", Json.str "a"), ("ct0", Json.str "b"),
          ("twid", Json.str "c"), ("guest_id", Json.str "d"), ("att", Json.str "e")])]))
      = some true) ∧
    (make_request (some (.obj [("cookieHeader", Json.str "x=y"),
        ("essentials", Json.obj [("auth_token", Json.str "a"), ("ct0", Json.str "b"),
          ("twid", Json.str "c"), ("guest_id", Json.str "d"), ("att", Json.str "e")])]))
        true ⟨3, 2⟩ (fun _ => .timeout)
      = request_loop true (fun _ => .timeout) 2 3 0) := by
  have h1 := C2_authentication_gate.1
    [("cookieHeader", Json.str "x=y"), ("essentials", Json.obj [("auth_token", Json.str "a")])]
    [("auth_token", Json.str "a")] "ct0" rfl (by decide) (Or.inl rfl)
  have h2 := C2_authentication_gate.2
    [("cookieHeader", Json.str "x=y"),
     ("essentials", Json.obj [("auth_token", Json.str "a"), ("ct0", Json.str "b"),
       ("twid", Json.str "c"), ("guest_id", Json.str "d"), ("att", Json.str "e")])]
    [("auth_token", Json.str "a"), ("ct0", Json.str "b"), ("twid", Json.str "c"),
     ("guest_id", Json.str "d"), ("att", Json.str "e")]
    (Json.str "x=y") rfl (by decide) rfl
    (by
      intro k hk
      fin_cases hk
      · exact ⟨Json.str "a", rfl, rfl⟩
      · exact ⟨Json.str "b", rfl, rfl⟩
      · exact ⟨Json.str "c", rfl, rfl⟩
      · exact ⟨Json.str "d", rfl, rfl⟩
      · exact ⟨Json.str "e", rfl, rfl⟩)
  exact ⟨h1.1, h1.2 true ⟨3, 2⟩ (fun _ => .timeout), h2.1,
    h2.2.2 true ⟨3, 2⟩ (fun _ => .timeout)⟩

/-- Strings with different first characters differ. -/
theorem ne_of_data_head_ne {a b : String} (h : a.data.head? ≠ b.data.head?) : a ≠ b :=
  fun he => h (he ▸ rfl)

/-- Appending on the right keeps the data non-empty. -/
theorem append_data_ne_nil {a : String} (h : a.data ≠ []) (b : String) :
    (a ++ b).data ≠ [] := by
  rw [String.data_append]
  intro hx
  exact h (List.append_eq_nil.mp hx).1

/-- Appending on the right keeps the first character. -/
theorem append_data_head {a : String} (h : a.data ≠ []) (b : String) :
    (a ++ b).data.head? = a.data.head? := by
  rw [String.data_append]
  cases hd : a.data with
  | nil => exact absurd hd h
  | cons c cs => simp

/-- Appending on the right keeps both non-emptiness and the first character. -/
theorem append_keeps {a : String} {c : Char}
    (h : a.data ≠ [] ∧ a.data.head? = some c) (b : String) :
    (a ++ b).data ≠ [] ∧ (a ++ b).data.head? = some c :=
  ⟨append_data_ne_nil h.1 b, by rw [append_data_head h.1 b]; exact h.2⟩

/-- A string starting with character `c` differs from any string that does
not start with `c`, whatever is appended. -/
theorem append_ne_of_keeps {p : String} {c : Char} (t : String)
    (hp : p.data ≠ [] ∧ p.data.head? = some c)
    (hne : some c ≠ t.data.head?) (s : String) : p ++ s ≠ t := by
  apply append_ne_of_head_ne _ _ _ hp.1
  rw [hp.2]
  exact hne

/-- Every `TwitterClientError` message raised by `_handle_response` starts
with a distinctive prefix, so none of them equals the loop-exhaustion
message `"Max retries exceeded"`. -/
theorem handle_response_msg_ne_max {r : Response} {msg : String}
    (h : handle_response r = .clientError msg) : msg ≠ "Max retries exceeded" := by
  unfold handle_response at h
  split at h
  · -- status >= 400
    split at h
    · -- parseable JSON body
      split at h
      · -- data.get("error") crashes
        cases h
      · -- error.code / error.message defaulted reads
        split at h
        · injection h with hm
          rw [← hm]
          exact append_ne_of_keeps "Max retries exceeded"
            (append_keeps (append_keeps (append_keeps (append_keeps
              (⟨by decide, by decide⟩ : "HTTP ".data ≠ [] ∧ "HTTP ".data.head? = some 'H')
              _) ": ") _) " - ") (by decide) _
        · cases h
    · -- JSONDecodeError: status + reason phrase
      injection h with hm
      rw [← hm]
      exact append_ne_of_keeps "Max retries exceeded"
        (append_keeps
          (⟨by decide, by decide⟩ : "HTTP ".data ≠ [] ∧ "HTTP ".data.head? = some 'H')
          _) (by decide) _
  · -- status < 400
    split at h
    · -- JSONDecodeError: malformed body
      injection h with hm
      rw [← hm]
      exact append_ne_of_keeps "Max retries exceeded"
        (⟨by decide, by decide⟩ : "Invalid response format: ".data ≠ [] ∧
          "Invalid response format: ".data.head? = some 'I') (by decide) _
    · -- parsed body
      split at h
      · -- success flag read crashes
        cases h
      · -- success flag present
        split at h
        · -- truthy success: payload returned
          cases h
        · -- falsy success: application error mapping
          split at h
          · -- error read crashes
            cases h
          · -- error dict read
            split at h
            · -- string code with string-rendered message
              split at h
              · injection h with hm
                rw [← hm]
                exact append_ne_of_keeps "Max retries exceeded"
                  (⟨by decide, by decide⟩ : "Authentication error: ".data ≠ [] ∧
                    "Authentication error: ".data.head? = some 'A') (by decide) _
              · split at h
                · injection h with hm
                  rw [← hm]
                  exact append_ne_of_keeps "Max retries exceeded"
                    (⟨by decide, by decide⟩ : "Resource not found: ".data ≠ [] ∧
                      "Resource not found: ".data.head? = some 'R') (by decide) _
                · split at h
                  · injection h with hm
                    rw [← hm]
                    exact append_ne_of_keeps "Max retries exceeded"
                      (⟨by decide, by decide⟩ : "Rate limit exceeded: ".data ≠ [] ∧
                        "Rate limit exceeded: ".data.head? = some 'R') (by decide) _
                  · injection h with hm
                    rw [← hm]
                    exact append_ne_of_keeps "Max retries exceeded"
                      (append_keeps (append_keeps
                        (⟨by decide, by decide⟩ : "API error (".data ≠ [] ∧
                          "API error (".data.head? = some 'A') _) "): ") (by decide) _
            · cases h
            · cases h

/-- Whenever the retry loop still has fuel, it exits through one of its
in-loop returns or raises, never through the fall-out message. -/
theorem request_loop_result_ne_max (hs : Bool) (o : Nat → AttemptOutcome) (b : Nat) :
    ∀ (remaining attempt : Nat), remaining ≠ 0 →
      (request_loop hs o b remaining attempt).result ≠ .clientError "Max retries exceeded" := by
  intro remaining
  induction remaining with
  | zero =>
    intro attempt h
    exact absurd rfl h
  | succ n ih =>
    intro attempt _
    unfold request_loop
    split
    · split
      · split
        · intro hc
          injection hc with hm
          exact absurd hm (by decide)
        · next hn => exact ih (attempt + 1) hn
      · split
        · intro hc
          injection hc with hm
          exact absurd hm (by decide)
        · next hn => exact ih (attempt + 1) hn
      · split
        · intro hc
          cases hc
        · next heq =>
          split
          · split
            · intro hc
              injection hc with hm
              exact (handle_response_msg_ne_max heq) hm
            · next hn => exact ih (attempt + 1) hn
          · intro hc
            injection hc with hm
            exact (handle_response_msg_ne_max heq) hm
        · intro hc
          cases hc
        · intro hc
          cases hc
    · intro hc
      cases hc

/-- The retry loop never executes more attempts than it has fuel. -/
theorem request_loop_attempts_le (hs : Bool) (o : Nat → AttemptOutcome) (b : Nat) :
    ∀ (remaining attempt : Nat),
      (request_loop hs o b remaining attempt).attempts ≤ remaining := by
  intro remaining
  induction remaining with
  | zero =>
    intro attempt
    exact Nat.le_refl 0
  | succ n ih =>
    intro attempt
    unfold request_loop
    split
    · split
      · split
        · exact Nat.succ_le_succ (Nat.zero_le n)
        · exact Nat.succ_le_succ (ih (attempt + 1))
      · split
        · exact Nat.succ_le_succ (Nat.zero_le n)
        · exact Nat.succ_le_succ (ih (attempt + 1))
      · split
        · exact Nat.succ_le_succ (Nat.zero_le n)
        · split
          · split
            · exact Nat.succ_le_succ (Nat.zero_le n)
            · exact Nat.succ_le_succ (ih (attempt + 1))
          · exact Nat.succ_le_succ (Nat.zero_le n)
        · exact Nat.succ_le_succ (Nat.zero_le n)
        · exact Nat.succ_le_succ (Nat.zero_le n)
    · exact Nat.zero_le (n + 1)

/-- The sleeps recorded by the retry loop starting at `attempt` are exactly
`backoff_base ^ i` for consecutive `i` starting at `attempt`. -/
theorem request_loop_sleeps_shape (hs : Bool) (o : Nat → AttemptOutcome) (b : Nat) :
    ∀ (remaining attempt : Nat),
      (request_loop hs o b remaining attempt).sleeps
        = (List.range' attempt (request_loop hs o b remaining attempt).sleeps.length).map
            (fun i => b ^ i) := by
  intro remaining
  induction remaining with
  | zero =>
    intro attempt
    rfl
  | succ n ih =>
    intro attempt
    unfold request_loop
    split
    · split
      · split
        · rfl
        · show b ^ attempt :: (request_loop hs o b n (attempt + 1)).sleeps = _
          rw [List.length_cons, List.range'_succ, List.map_cons]
          congr 1
          exact ih (attempt + 1)
      · split
        · rfl
        · show b ^ attempt :: (request_loop hs o b n (attempt + 1)).sleeps = _
          rw [List.length_cons, List.range'_succ, List.map_cons]
          congr 1
          exact ih (attempt + 1)
      · split
        · rfl
        · split
          · split
            · rfl
            · show b ^ attempt :: (request_loop hs o b n (attempt + 1)).sleeps = _
              rw [List.length_cons, List.range'_succ, List.map_cons]
              congr 1
              exact ih (attempt + 1)
          · rfl
        · rfl
        · rfl
    · rfl

/-- With only transport failures on offer and a live session, the retry loop
consumes all its fuel and surfaces one of the two transport error messages. -/
theorem request_loop_transport_exhausts (o : Nat → AttemptOutcome) (b : Nat) :
    ∀ (remaining attempt : Nat), remaining ≠ 0 →
      (∀ i, attempt ≤ i → i < attempt + remaining →
        o i = .timeout ∨ o i = .connectionError) →
      ((request_loop true o b remaining attempt).result
          = .clientError "Request timeout - bridge may be unavailable" ∨
       (request_loop true o b remaining attempt).result
          = .clientError "Connection error - unable to reach bridge") ∧
      (request_loop true o b remaining attempt).attempts = remaining := by
  intro remaining
  induction remaining with
  | zero =>
    intro attempt h
    exact absurd rfl h
  | succ n ih =>
    intro attempt _ hall
    have h0 := hall attempt (Nat.le_refl attempt) (by omega)
    unfold request_loop
    rw [if_pos rfl]
    split
    · split
      · next hn =>
        subst hn
        exact ⟨Or.inl rfl, rfl⟩
      · next hn =>
        have ihh := ih (attempt + 1) hn (fun i hi1 hi2 => hall i (by omega) (by omega))
        refine ⟨ihh.1, ?_⟩
        show (request_loop true o b n (attempt + 1)).attempts + 1 = n + 1
        rw [ihh.2]
    · split
      · next hn =>
        subst hn
        exact ⟨Or.inr rfl, rfl⟩
      · next hn =>
        have ihh := ih (attempt + 1) hn (fun i hi1 hi2 => hall i (by omega) (by omega))
        refine ⟨ihh.1, ?_⟩
        show (request_loop true o b n (attempt + 1)).attempts + 1 = n + 1
        rw [ihh.2]
    · next r heq =>
      exfalso
      rw [heq] at h0
      rcases h0 with hx | hx <;> cases hx

/-- The only `TwitterClientError` messages `_check_authentication` can raise
are its two authentication messages. -/
theorem check_authentication_msgs {cookie_data : Option Json} {m : String}
    (h : check_authentication cookie_data = .clientError m) :
    m = authMissingMsg ∨ m = authInvalidMsg := by
  unfold check_authentication at h
  split at h
  · split at h
    · split at h
      · split at h
        · dsimp only at h
          split at h
          · cases h
          · injection h with hm
            exact Or.inl hm.symm
        · dsimp only at h
          split at h
          · injection h with hm
            exact Or.inr hm.symm
          · injection h with hm
            exact Or.inl hm.symm
        · dsimp only at h
          split at h
          · cases h
          · injection h with hm
            exact Or.inl hm.symm
      · injection h with hm
        exact Or.inl hm.symm
    · cases h
  · injection h with hm
    exact Or.inl hm.symm

/-- C9: with `max_retries = 0` and a passing authentication gate,
`_make_request` raises `"Max retries exceeded"` immediately, with zero
attempts executed, no sleeps and no network activity; conversely this error
is only reachable that way — whenever it is raised, the gate had passed,
`max_retries` was 0 and nothing was attempted, because every in-loop failure
path either retries or raises a differently-worded error before the loop can
exit. -/
theorem C9_retries_exhausted_only_at_zero (cookie_data : Option Json) (hs : Bool)
    (cfg : ApiConfig) (outcomes : Nat → AttemptOutcome) :
    (check_authentication cookie_data = .ok () → cfg.max_retries = 0 →
      make_request cookie_data hs cfg outcomes
        = ⟨.clientError "Max retries exceeded", [], 0⟩) ∧
    ((make_request cookie_data hs cfg outcomes).result
        = .clientError "Max retries exceeded" →
      cfg.max_retries = 0 ∧ check_authentication cookie_data = .ok () ∧
      (make_request cookie_data hs cfg outcomes).attempts = 0 ∧
      (make_request cookie_data hs cfg outcomes).sleeps = []) := by
  constructor
  · intro hok h0
    rw [make_request_of_check_ok hs cfg outcomes hok, h0]
    rfl
  · intro hres
    cases hchk : check_authentication cookie_data with
    | ok u =>
      cases u
      have hmr := make_request_of_check_ok hs cfg outcomes hchk
      rw [hmr] at hres
      by_cases h0 : cfg.max_retries = 0
      · refine ⟨h0, rfl, ?_, ?_⟩
        · rw [hmr, h0]
          rfl
        · rw [hmr, h0]
          rfl
      · exact absurd hres
          (request_loop_result_ne_max hs outcomes cfg.backoff_base cfg.max_retries 0 h0)
    | clientError m =>
      have hmr := make_request_of_check_err hs cfg outcomes hchk
      rw [hmr] at hres
      injection hres with hm
      rcases check_authentication_msgs hchk with hx | hx <;>
        (rw [hx] at hm; exact absurd hm (by decide))
    | valueError m =>
      exfalso
      have hmr : make_request cookie_data hs cfg outcomes = ⟨.valueError m, [], 0⟩ := by
        unfold make_request
        rw [hchk]
      rw [hmr] at hres
      cases hres
    | crash =>
      exfalso
      have hmr : make_request cookie_data hs cfg outcomes = ⟨.crash, [], 0⟩ := by
        unfold make_request
        rw [hchk]
      rw [hmr] at hres
      cases hres

/-- Witness for C9: a fully authenticated bundle with `max_retries = 0`
raises `"Max retries exceeded"` with zero attempts. -/
theorem C9_retries_exhausted_only_at_zero_witness :
    check_authentication (some (.obj [("cookieHeader", Json.str "x=y"),
        ("essentials", Json.obj [("auth_token", Json.str "a"), ("ct0", Json.str "b"),
          ("twid", Json.str "c"), ("guest_id", Json.str "d"), ("att", Json.str "e")])]))
      = .ok () ∧
    make_request (some (.obj [("cookieHeader", Json.str "x=y"),
        ("essentials", Json.obj [("auth_token", Json.str "a"), ("ct0", Json.str "b"),
          ("twid", Json.str "c"), ("guest_id", Json.str "d"), ("att", Json.str "e")])]))
      true ⟨0, 2⟩ (fun _ => .timeout)
      = ⟨.clientError "Max retries exceeded", [], 0⟩ :=
  ⟨rfl, (C9_retries_exhausted_only_at_zero (some (.obj [("cookieHeader", Json.str "x=y"),
        ("essentials", Json.obj [("auth_token", Json.str "a"), ("ct0", Json.str "b"),
          ("twid", Json.str "c"), ("guest_id", Json.str "d"), ("att", Json.str "e")])]))
      true ⟨0, 2⟩ (fun _ => .timeout)).1 rfl rfl⟩

/-- C3: a `_make_request` run executes at most `max_retries` attempts; the
backoff delay slept after failed attempt `i` (zero-indexed) is
`backoff_base ^ i`, so with `backoff_base > 1` the successive delays
strictly increase; and when every attempt is a timeout or connection-level
transport failure, the final allowed attempt surfaces one of the two
`TransportUnavailable` messages with no further attempt (exactly
`max_retries` attempts executed). -/
theorem C3_retry_bounds (cookie_data : Option Json) (hs : Bool) (cfg : ApiConfig)
    (outcomes : Nat → AttemptOutcome) :
    (make_request cookie_data hs cfg outcomes).attempts ≤ cfg.max_retries ∧
    ((make_request cookie_data hs cfg outcomes).sleeps
      = (List.range (make_request cookie_data hs cfg outcomes).sleeps.length).map
          (fun i => cfg.backoff_base ^ i)) ∧
    (1 < cfg.backoff_base →
      (make_request cookie_data hs cfg outcomes).sleeps.Pairwise (· < ·)) ∧
    (check_authentication cookie_data = .ok () → cfg.max_retries ≠ 0 →
      (∀ i, i < cfg.max_retries → outcomes i = .timeout ∨ outcomes i = .connectionError) →
      ((make_request cookie_data true cfg outcomes).result
          = .clientError "Request timeout - bridge may be unavailable" ∨
       (make_request cookie_data true cfg outcomes).result
          = .clientError "Connection error - unable to reach bridge") ∧
      (make_request cookie_data true cfg outcomes).attempts = cfg.max_retries) := by
  have hsleeps : (make_request cookie_data hs cfg outcomes).sleeps
      = (List.range (make_request cookie_data hs cfg outcomes).sleeps.length).map
          (fun i => cfg.backoff_base ^ i) := by
    cases hchk : check_authentication cookie_data with
    | ok u =>
      cases u
      rw [make_request_of_check_ok hs cfg outcomes hchk]
      rw [List.range_eq_range']
      exact request_loop_sleeps_shape hs outcomes cfg.backoff_base cfg.max_retries 0
    | clientError m =>
      rw [make_request_of_check_err hs cfg outcomes hchk]
      rfl
    | valueError m =>
      have hmr : make_request cookie_data hs cfg outcomes = ⟨.valueError m, [], 0⟩ := by
        unfold make_request
        rw [hchk]
      rw [hmr]
      rfl
    | crash =>
      have hmr : make_request cookie_data hs cfg outcomes = ⟨.crash, [], 0⟩ := by
        unfold make_request
        rw [hchk]
      rw [hmr]
      rfl
  refine ⟨?_, hsleeps, ?_, ?_⟩
  · cases hchk : check_authentication cookie_data with
    | ok u =>
      cases u
      rw [make_request_of_check_ok hs cfg outcomes hchk]
      exact request_loop_attempts_le hs outcomes cfg.backoff_base cfg.max_retries 0
    | clientError m =>
      rw [make_request_of_check_err hs cfg outcomes hchk]
      exact Nat.zero_le _
    | valueError m =>
      have hmr : make_request cookie_data hs cfg outcomes = ⟨.valueError m, [], 0⟩ := by
        unfold make_request
        rw [hchk]
      rw [hmr]
      exact Nat.zero_le _
    | crash =>
      have hmr : make_request cookie_data hs cfg outcomes = ⟨.crash, [], 0⟩ := by
        unfold make_request
        rw [hchk]
      rw [hmr]
      exact Nat.zero_le _
  · intro hb
    rw [hsleeps]
    exact List.Pairwise.map (fun i => cfg.backoff_base ^ i)
      (fun a b hab => Nat.pow_lt_pow_right hb hab)
      (List.pairwise_lt_range _)
  · intro hok h0 hall
    rw [make_request_of_check_ok true cfg outcomes hok]
    exact request_loop_transport_exhausts outcomes cfg.backoff_base cfg.max_retries 0 h0
      (fun i hi1 hi2 => hall i (by omega))

/-- Witness for C3: three straight timeouts with `max_retries = 3` and
`backoff_base = 2` give three attempts, strictly increasing sleeps `[1, 2]`
and the timeout transport error. -/
theorem C3_retry_bounds_witness :
    (make_request (some (.obj [("cookieHeader", Json.str "x=y"),
        ("essentials", Json.obj [("auth_token", Json.str "a"), ("ct0", Json.str "b"),
          ("twid", Json.str "c"), ("guest_id", Json.str "d"), ("att", Json.str "e")])]))
      true ⟨3, 2⟩ (fun _ => .timeout)).attempts ≤ 3 ∧
    (make_request (some (.obj [("cookieHeader", Json.str "x=y"),
        ("essentials", Json.obj [("auth_token", Json.str "a"), ("ct0", Json.str "b"),
          ("twid", Json.str "c"), ("guest_id", Json.str "d"), ("att", Json.str "e")])]))
      true ⟨3, 2⟩ (fun _ => .timeout)).sleeps.Pairwise (· < ·) ∧
    ((make_request (some (.obj [("cookieHeader", Json.str "x=y"),
        ("essentials", Json.obj [("auth_token", Json.str "a"), ("ct0", Json.str "b"),
          ("twid", Json.str "c"), ("guest_id", Json.str "d"), ("att", Json.str "e")])]))
      true ⟨3, 2⟩ (fun _ => .timeout)).result
        = .clientError "Request timeout - bridge may be unavailable" ∨
     (make_request (some (.obj [("cookieHeader", Json.str "x=y"),
        ("essentials", Json.obj [("auth_token", Json.str "a"), ("ct0", Json.str "b"),
          ("twid", Json.str "c"), ("guest_id", Json.str "d"), ("att", Json.str "e")])]))
      true ⟨3, 2⟩ (fun _ => .timeout)).result
        = .clientError "Connection error - unable to reach bridge") ∧
    (make_request (some (.obj [("cookieHeader", Json.str "x=y"),
        ("essentials", Json.obj [("auth_token", Json.str "a"), ("ct0", Json.str "b"),
          ("twid", Json.str "c"), ("guest_id", Json.str "d"), ("att", Json.str "e")])]))
      true ⟨3, 2⟩ (fun _ => .timeout)).attempts = 3 := by
  have h := C3_retry_bounds (some (.obj [("cookieHeader", Json.str "x=y"),
        ("essentials", Json.obj [("auth_token", Json.str "a"), ("ct0", Json.str "b"),
          ("twid", Json.str "c"), ("guest_id", Json.str "d"), ("att", Json.str "e")])]))
      true ⟨3, 2⟩ (fun _ => .timeout)
  have h4 := h.2.2.2 rfl (by decide) (fun i hi => Or.inl rfl)
  exact ⟨h.1, h.2.2.1 (by decide), h4.1, h4.2⟩

/-- Counterexample for C1: a classified HTTP-status error whose status is 400
— not one of 502/503/504 — is nevertheless retried, because the retry test
is a substring test on the error message and the body-supplied message
`"HTTP 502: fake"` smuggles a transient marker into
`"HTTP 400: X - HTTP 502: fake"`. With a second, successful attempt the call
returns the success payload after one backoff sleep instead of propagating
the 400 error immediately. -/
theorem C1_counterexample_status_400_retried :
    handle_response ⟨400, some (errEnvelope (.bool false) "X" "HTTP 502: fake"),
        "Bad Request", ""⟩
      = .clientError "HTTP 400: X - HTTP 502: fake" ∧
    is_transient_msg "HTTP 400: X - HTTP 502: fake" = true ∧
    make_request (some (.obj [("cookieHeader", Json.str "x=y"),
        ("essentials", Json.obj [("auth_token", Json.str "a"), ("ct0", Json.str "b"),
          ("twid", Json.str "c"), ("guest_id", Json.str "d"), ("att", Json.str "e")])]))
      true ⟨2, 2⟩
      (fun n => if n = 0 then
          .response ⟨400, some (errEnvelope (.bool false) "X" "HTTP 502: fake"),
            "Bad Request", ""⟩
        else
          .response ⟨200, some (.obj [("success", Json.bool true), ("data", Json.arr [])]),
            "OK", ""⟩)
      = ⟨.ok (.obj [("success", Json.bool true), ("data", Json.arr [])]), [1], 2⟩ :=
  ⟨rfl, rfl, rfl⟩
/-- One classified-error step of the retry loop: when attempt `attempt`
delivers a response that classifies to a `TwitterClientError`, the loop
decides on the message with the substring test `is_transient_msg`. -/
theorem request_loop_response_clientError (o : Nat → AttemptOutcome) (b n attempt : Nat)
    (r : Response) (msg : String)
    (ho : o attempt = .response r) (hmsg : handle_response r = .clientError msg) :
    request_loop true o b (n + 1) attempt
      = (if is_transient_msg msg then
           (if n = 0 then
              ⟨.clientError msg, [], 1⟩
            else
              ⟨(request_loop true o b n (attempt + 1)).result,
               b ^ attempt :: (request_loop true o b n (attempt + 1)).sleeps,
               (request_loop true o b n (attempt + 1)).attempts + 1⟩)
         else ⟨.clientError msg, [], 1⟩) := by
  simp only [request_loop]
  rw [if_pos trivial, ho]
  show (match handle_response r with
    | PyResult.ok payload => (⟨.ok payload, [], 1⟩ : RunOut)
    | PyResult.clientError msg =>
      if is_transient_msg msg then
        if n = 0 then
          ⟨.clientError msg, [], 1⟩
        else
          ⟨(request_loop true o b n (attempt + 1)).result,
           b ^ attempt :: (request_loop true o b n (attempt + 1)).sleeps,
           (request_loop true o b n (attempt + 1)).attempts + 1⟩
      else ⟨.clientError msg, [], 1⟩
    | PyResult.valueError msg => ⟨.valueError msg, [], 1⟩
    | PyResult.crash => ⟨.crash, [], 1⟩) = _
  rw [hmsg]

/-- C1 (amended): inside `_make_request`, a classified error is retried if
and only if its MESSAGE contains one of the substrings `"HTTP 502:"`,
`"HTTP 503:"`, `"HTTP 504:"` and attempts remain: a non-transient-looking
message propagates immediately with no further attempt; a transient-looking
message on the final attempt is re-raised verbatim; a transient-looking
message with attempts remaining sleeps `backoff_base ^ attempt` and retries.
Classified errors for genuine HTTP 502/503/504 responses always carry their
status marker, so they are always treated as transient. -/
theorem C1_retry_decision_amended :
    (∀ (r : Response) (msg : String) (n attempt : Nat)
       (o : Nat → AttemptOutcome) (b : Nat),
      o attempt = .response r →
      handle_response r = .clientError msg →
      (is_transient_msg msg = false →
        request_loop true o b (n + 1) attempt = ⟨.clientError msg, [], 1⟩) ∧
      (is_transient_msg msg = true → n = 0 →
        request_loop true o b (n + 1) attempt = ⟨.clientError msg, [], 1⟩) ∧
      (is_transient_msg msg = true → n ≠ 0 →
        request_loop true o b (n + 1) attempt
          = ⟨(request_loop true o b n (attempt + 1)).result,
             b ^ attempt :: (request_loop true o b n (attempt + 1)).sleeps,
             (request_loop true o b n (attempt + 1)).attempts + 1⟩)) ∧
    (∀ (st : Nat) (code message reason text msg : String),
      (st = 502 ∨ st = 503 ∨ st = 504) →
      handle_response ⟨st, some (errEnvelope (.bool false) code message), reason, text⟩
        = .clientError msg →
      is_transient_msg msg = true) := by
  constructor
  · intro r msg n attempt o b ho hmsg
    rw [request_loop_response_clientError o b n attempt r msg ho hmsg]
    refine ⟨?_, ?_, ?_⟩
    · intro htr
      rw [htr]
      rfl
    · intro htr hn
      subst hn
      rw [htr]
      rfl
    · intro htr hn
      rw [htr]
      show (if (n = 0) then _ else _) = _
      rw [if_neg hn]
  · intro st code message reason text msg hst hmsg
    have hshape := C4_response_classification.1 st code message reason text (by omega)
    rw [hshape] at hmsg
    injection hmsg with hm
    rw [← hm]
    rcases hst with rfl | rfl | rfl
    · unfold is_transient_msg transient_status_markers
      simp only [List.any_cons, List.any_nil, Bool.or_eq_true]
      exact Or.inl (subIn_of_isPrefixOf rfl)
    · unfold is_transient_msg transient_status_markers
      simp only [List.any_cons, List.any_nil, Bool.or_eq_true]
      exact Or.inr (Or.inl (subIn_of_isPrefixOf rfl))
    · unfold is_transient_msg transient_status_markers
      simp only [List.any_cons, List.any_nil, Bool.or_eq_true]
      exact Or.inr (Or.inr (Or.inl (subIn_of_isPrefixOf rfl)))

/-- Witness for C1 (amended): a 404-classified error propagates at once, a
503-classified error on the final attempt is re-raised verbatim, and its
message is recognized as transient. -/
theorem C1_retry_decision_amended_witness :
    request_loop true (fun _ => .response ⟨404,
        some (errEnvelope (.bool false) "NOT_FOUND" "gone"), "Not Found", ""⟩) 2 (1 + 1) 0
      = ⟨.clientError "HTTP 404: NOT_FOUND - gone", [], 1⟩ ∧
    request_loop true (fun _ => .response ⟨503,
        some (errEnvelope (.bool false) "X" "y"), "Service Unavailable", ""⟩) 2 (0 + 1) 0
      = ⟨.clientError "HTTP 503: X - y", [], 1⟩ ∧
    is_transient_msg "HTTP 503: X - y" = true := by
  have h1 := (C1_retry_decision_amended.1
    ⟨404, some (errEnvelope (.bool false) "NOT_FOUND" "gone"), "Not Found", ""⟩
    "HTTP 404: NOT_FOUND - gone" 1 0
    (fun _ => .response ⟨404, some (errEnvelope (.bool false) "NOT_FOUND" "gone"),
      "Not Found", ""⟩) 2 rfl rfl).1 rfl
  have h2 := (C1_retry_decision_amended.1
    ⟨503, some (errEnvelope (.bool false) "X" "y"), "Service Unavailable", ""⟩
    "HTTP 503: X - y" 0 0
    (fun _ => .response ⟨503, some (errEnvelope (.bool false) "X" "y"),
      "Service Unavailable", ""⟩) 2 rfl rfl).2.1 rfl rfl
  have h3 := C1_retry_decision_amended.2 503 "X" "y" "Service Unavailable" ""
    "HTTP 503: X - y" (Or.inr (Or.inl rfl)) rfl
  exact ⟨h1, h2, h3⟩

/-- With the session attribute deleted, any iteration of the retry loop
raises `AttributeError` before any network activity. -/
theorem request_loop_no_session (o : Nat → AttemptOutcome) (b attempt : Nat) :
    ∀ remaining, remaining ≠ 0 →
      request_loop false o b remaining attempt = ⟨.crash, [], 0⟩ := by
  intro remaining h
  cases remaining with
  | zero => exact absurd rfl h
  | succ n => rfl

/-- Counterexample for C6: a second `close()` after a first `close()` is a
silent no-op — the `hasattr` guard makes it return normally rather than
fail loudly. -/
theorem C6_counterexample_double_close_silent :
    close (some ()) = .ok none ∧ close none = .ok none :=
  ⟨rfl, rfl⟩

/-- C6 (amended): using the client after `close()` never silently succeeds —
no request issued without the session attribute can return a payload, and
with the gate passed and at least one attempt configured it raises
`AttributeError` — but a second `close()` does NOT fail: `close` returns
normally whether or not the session attribute is still present. -/
theorem C6_use_after_close_amended :
    (∀ (cookie_data : Option Json) (cfg : ApiConfig)
       (outcomes : Nat → AttemptOutcome) (j : Json),
      (make_request cookie_data false cfg outcomes).result ≠ .ok j) ∧
    (∀ (cookie_data : Option Json) (cfg : ApiConfig)
       (outcomes : Nat → AttemptOutcome),
      check_authentication cookie_data = .ok () → cfg.max_retries ≠ 0 →
      (make_request cookie_data false cfg outcomes).result = .crash) ∧
    (∀ session : Option Unit, close session = .ok none) := by
  refine ⟨?_, ?_, ?_⟩
  · intro cookie_data cfg outcomes j
    cases hchk : check_authentication cookie_data with
    | ok u =>
      cases u
      rw [make_request_of_check_ok false cfg outcomes hchk]
      cases h0 : cfg.max_retries with
      | zero =>
        intro hc
        cases hc
      | succ n =>
        rw [request_loop_no_session outcomes cfg.backoff_base 0 (n + 1) (Nat.succ_ne_zero n)]
        intro hc
        cases hc
    | clientError m =>
      rw [make_request_of_check_err false cfg outcomes hchk]
      intro hc
      cases hc
    | valueError m =>
      have hmr : make_request cookie_data false cfg outcomes = ⟨.valueError m, [], 0⟩ := by
        unfold make_request
        rw [hchk]
      rw [hmr]
      intro hc
      cases hc
    | crash =>
      have hmr : make_request cookie_data false cfg outcomes = ⟨.crash, [], 0⟩ := by
        unfold make_request
        rw [hchk]
      rw [hmr]
      intro hc
      cases hc
  · intro cookie_data cfg outcomes hok h0
    rw [make_request_of_check_ok false cfg outcomes hok]
    rw [request_loop_no_session outcomes cfg.backoff_base 0 cfg.max_retries h0]
  · intro session
    cases session <;> rfl

/-- Witness for C6 (amended): after closing, a request on an authenticated
client raises `AttributeError` rather than returning a payload. -/
theorem C6_use_after_close_amended_witness :
    (make_request (some (.obj [("cookieHeader", Json.str "x=y"),
        ("essentials", Json.obj [("auth_token", Json.str "a"), ("ct0", Json.str "b"),
          ("twid", Json.str "c"), ("guest_id", Json.str "d"), ("att", Json.str "e")])]))
      false ⟨3, 2⟩ (fun _ => .timeout)).result ≠ .ok Json.null ∧
    (make_request (some (.obj [("cookieHeader", Json.str "x=y"),
        ("essentials", Json.obj [("auth_token", Json.str "a"), ("ct0", Json.str "b"),
          ("twid", Json.str "c"), ("guest_id", Json.str "d"), ("att", Json.str "e")])]))
      false ⟨3, 2⟩ (fun _ => .timeout)).result = .crash :=
  ⟨C6_use_after_close_amended.1 (some (.obj [("cookieHeader", Json.str "x=y"),
        ("essentials", Json.obj [("auth_token", Json.str "a"), ("ct0", Json.str "b"),
          ("twid", Json.str "c"), ("guest_id", Json.str "d"), ("att", Json.str "e")])]))
      ⟨3, 2⟩ (fun _ => .timeout) Json.null,
   C6_use_after_close_amended.2.1 (some (.obj [("cookieHeader", Json.str "x=y"),
        ("essentials", Json.obj [("auth_token", Json.str "a"), ("ct0", Json.str "b"),
          ("twid", Json.str "c"), ("guest_id", Json.str "d"), ("att", Json.str "e")])]))
      ⟨3, 2⟩ (fun _ => .timeout) rfl (by decide)⟩

/-- A successful association-list lookup means the pair is in the list. -/
theorem mem_of_lookup_eq_some {l : List (String × String)} {k v : String}
    (h : l.lookup k = some v) : (k, v) ∈ l := by
  rcases List.lookup_eq_some_iff.mp h with ⟨l₁, l₂, rfl, _⟩
  exact List.mem_append_right l₁ (List.mem_cons_self _ _)

/-- Invariant of the harvesting loop: every pair recorded in `cookie_lookup`
has its `name=value` string recorded in `header_parts`. -/
theorem harvestAcc_pairs_in_parts :
    ∀ (pairs : List (String × String)) (seen : List (String × String)) (parts : List String),
      (∀ k v, (k, v) ∈ seen → (k ++ "=" ++ v) ∈ parts) →
      ∀ k v, (k, v) ∈ (harvestAcc seen parts pairs).1 →
        (k ++ "=" ++ v) ∈ (harvestAcc seen parts pairs).2 := by
  intro pairs
  induction pairs with
  | nil =>
    intro seen parts hinv k v hm
    exact hinv k v hm
  | cons p rest ih =>
    intro seen parts hinv k v
    obtain ⟨n, w⟩ := p
    show (k, v) ∈ (harvestAcc seen parts ((n, w) :: rest)).1 →
      (k ++ "=" ++ v) ∈ (harvestAcc seen parts ((n, w) :: rest)).2
    unfold harvestAcc
    split
    · exact ih seen parts hinv k v
    · refine ih (seen ++ [(n, w)]) (parts ++ [n ++ "=" ++ w]) ?_ k v
      intro k' v' hm
      rcases List.mem_append.mp hm with hseen | hnew
      · exact List.mem_append_left _ (hinv k' v' hseen)
      · rcases List.mem_singleton.mp hnew with hp
        rw [Prod.mk.injEq] at hp
        rw [hp.1, hp.2]
        exact List.mem_append_right _ (List.mem_singleton.mpr rfl)

/-- C5 (amended): for every cookie list harvested by
`open_x_cdp._collect_twitter_tokens`, the produced `cookieHeader` contains
every essential `name=value` pair as one of its `"; "`-joined parts, and the
client returns that stored header verbatim through `get_cookie_header`. The
client itself does not enforce this for arbitrary loaded bundles. -/
theorem C5_harvested_header_contains_essentials :
    ∀ (cookies : List Json) (k v : String),
      (k, v) ∈ harvestEssentials cookies →
      (k ++ "=" ++ v) ∈ (harvestAcc [] [] (cookiePairs cookies)).2 ∧
      strContains (harvestHeader cookies) (k ++ "=" ++ v) = true ∧
      ∀ (cookiesField : Json),
        get_cookie_header (some (.obj [("cookies", cookiesField),
            ("cookieHeader", .str (harvestHeader cookies)),
            ("essentials", .obj ((harvestEssentials cookies).map
              fun p => (p.1, Json.str p.2)))]))
          = some (.str (harvestHeader cookies)) := by
  intro cookies k v hm
  have hlook : ((harvestAcc [] [] (cookiePairs cookies)).1.lookup k) = some v := by
    unfold harvestEssentials at hm
    rcases List.mem_filterMap.mp hm with ⟨a, _, hfa⟩
    rcases Option.map_eq_some'.mp hfa with ⟨w, hw, hp⟩
    rw [Prod.mk.injEq] at hp
    rw [← hp.1, hw, hp.2]
  have hmem : (k, v) ∈ (harvestAcc [] [] (cookiePairs cookies)).1 :=
    mem_of_lookup_eq_some hlook
  have hparts : (k ++ "=" ++ v) ∈ (harvestAcc [] [] (cookiePairs cookies)).2 :=
    harvestAcc_pairs_in_parts (cookiePairs cookies) [] []
      (fun k' v' hx => absurd hx (List.not_mem_nil (k', v'))) k v hmem
  refine ⟨hparts, ?_, ?_⟩
  · exact strContains_pyJoin_of_mem "; " _ _ hparts
  · intro cookiesField
    rfl

/-- Counterexample for C5 as stated: a fully authenticated bundle whose
stored `cookieHeader` is `"x=y"` passes `is_authenticated` and the gate, yet
`get_cookie_header` returns `"x=y"`, which does not contain the essential
pair `auth_token=a`. -/
theorem C5_counterexample_header_not_derived :
    is_authenticated (some (.obj [("cookieHeader", Json.str "x=y"),
        ("essentials", Json.obj [("auth_token", Json.str "a"), ("ct0", Json.str "b"),
          ("twid", Json.str "c"), ("guest_id", Json.str "d"), ("att", Json.str "e")])]))
      = some true ∧
    check_authentication (some (.obj [("cookieHeader", Json.str "x=y"),
        ("essentials", Json.obj [("auth_token", Json.str "a"), ("ct0", Json.str "b"),
          ("twid", Json.str "c"), ("guest_id", Json.str "d"), ("att", Json.str "e")])]))
      = .ok () ∧
    get_cookie_header (some (.obj [("cookieHeader", Json.str "x=y"),
        ("essentials", Json.obj [("auth_token", Json.str "a"), ("ct0", Json.str "b"),
          ("twid", Json.str "c"), ("guest_id", Json.str "d"), ("att", Json.str "e")])]))
      = some (.str "x=y") ∧
    strContains "x=y" "auth_token=a" = false :=
  ⟨rfl, rfl, rfl, rfl⟩

/-- Witness for C5 (amended): harvesting a concrete cookie list yields a
header `"auth_token=a; foo=f; ct0=c"` that contains the essential pair
`auth_token=a`. -/
theorem C5_harvested_header_contains_essentials_witness :
    ("auth_token", "a") ∈ harvestEssentials
      [.obj [("name", Json.str "auth_token"), ("value", Json.str "a")],
       .obj [("name", Json.str "foo"), ("value", Json.str "f")],
       .obj [("name", Json.str "auth_token"), ("value", Json.str "dup")],
       .obj [("name", Json.str "ct0"), ("value", Json.str "c")]] ∧
    strContains (harvestHeader
      [.obj [("name", Json.str "auth_token"), ("value", Json.str "a")],
       .obj [("name", Json.str "foo"), ("value", Json.str "f")],
       .obj [("name", Json.str "auth_token"), ("value", Json.str "dup")],
       .obj [("name", Json.str "ct0"), ("value", Json.str "c")]]) ("auth_token" ++ "=" ++ "a")
      = true :=
  ⟨by decide, (C5_harvested_header_contains_essentials
      [.obj [("name", Json.str "auth_token"), ("value", Json.str "a")],
       .obj [("name", Json.str "foo"), ("value", Json.str "f")],
       .obj [("name", Json.str "auth_token"), ("value", Json.str "dup")],
       .obj [("name", Json.str "ct0"), ("value", Json.str "c")]] "auth_token" "a"
      (by decide)).2.1⟩

/-- Normalizing an absent engagement mapping yields all-zero metrics. -/
theorem normalize_engagement_empty : normalize_engagement (.obj []) = .ok ⟨0, 0, 0, 0⟩ :=
  rfl

/-- The all-default `Profile` produced for an absent user mapping. -/
def defaultProfile : Profile :=
  ⟨.str "", .str "", .str "", .str "", .null, .bool false, .num 0, .num 0,
   .null, .null, none, .num 0, .null⟩

/-- Normalizing an absent user mapping yields the all-default profile with
`join_date` unset. -/
theorem normalize_user_empty (parseDate : String → Option Nat) :
    normalize_user parseDate (.obj []) = .ok defaultProfile :=
  rfl

/-- The `Profile` built by `_normalize_user` from a dict, given its computed
`join_date`. -/
def profileOf (ufields : List (String × Json)) (join_date : Option Nat) : Profile :=
  { id := (ufields.lookup "id").getD (.str "")
    username := (ufields.lookup "username").getD (.str "")
    display_name := (ufields.lookup "displayName").getD (.str "")
    bio := (ufields.lookup "bio").getD (.str "")
    avatar := (ufields.lookup "avatar").getD .null
    verified := (ufields.lookup "verified").getD (.bool false)
    followers := (ufields.lookup "followers").getD (.num 0)
    following := (ufields.lookup "following").getD (.num 0)
    location := (ufields.lookup "location").getD .null
    url := (ufields.lookup "url").getD .null
    join_date := join_date
    tweet_count := (ufields.lookup "tweetCount").getD (.num 0)
    pinned_tweet := (ufields.lookup "pinnedTweet").getD .null }

/-- On a dict, `_normalize_user` builds exactly `profileOf` with the
`joinDate`-derived timestamp. -/
theorem normalize_user_obj (parseDate : String → Option Nat)
    (ufields : List (String × Json)) :
    normalize_user parseDate (.obj ufields)
      = .ok (profileOf ufields
          (match ufields.lookup "joinDate" with
           | some (.str s) => parseDate s
           | some _ => none
           | none => none)) :=
  rfl

/-- The lexical `ContentFeatures` the client computes for `text` and the
raw `media` value. -/
def featuresOf (text : String) (media : Json) : ContentFeatures :=
  { length := text.length
    word_count := pyWordCount text
    has_question := strContains text "?"
    has_media := media.truthy
    has_hashtags := strContains text "#"
    has_mentions := strContains text "@"
    has_links := strContains text.toLower "http" }

/-- Characterization of `_normalize_tweet` on a dict whose `user` and
`engagement` keys are absent and whose defaulted `text` is the string `s`:
it succeeds with the default profile, zero engagement, the lexical features
of `s`, and the `createdAt`-derived timestamp. -/
theorem normalize_tweet_defaults (parseDate : String → Option Nat) (now : Nat)
    (fields : List (String × Json)) (s : String)
    (hu : fields.lookup "user" = none)
    (he : fields.lookup "engagement" = none)
    (ht : (fields.lookup "text").getD (.str "") = .str s) :
    normalize_tweet parseDate now (.obj fields)
      = .ok { id := (fields.lookup "id").getD (.str "")
              text := s
              user := defaultProfile
              created_at :=
                (match fields.lookup "createdAt" with
                 | some j =>
                   if j.truthy then
                     (match j with
                      | .str ds => (parseDate ds).getD now
                      | _ => now)
                   else now
                 | none => now)
              engagement := ⟨0, 0, 0, 0⟩
              features := featuresOf s ((fields.lookup "media").getD (.arr []))
              urls := (fields.lookup "urls").getD (.arr [])
              hashtags := (fields.lookup "hashtags").getD (.arr [])
              mentions := (fields.lookup "mentions").getD (.arr [])
              media := (fields.lookup "media").getD (.arr [])
              is_retweet := (fields.lookup "isRetweet").getD (.bool false)
              is_reply := (fields.lookup "isReply").getD (.bool false)
              is_thread := (fields.lookup "isThread").getD (.bool false)
              thread_position := (fields.lookup "threadPosition").getD .null
              quoted_tweet := (fields.lookup "quotedTweet").getD .null
              retweeted_tweet := (fields.lookup "retweetedTweet").getD .null } := by
  simp only [normalize_tweet, hu, he, ht, Option.getD_none,
    normalize_user_empty, normalize_engagement_empty]
  rfl

/-- C7: tweet normalization never raises for missing optional fields — with
`createdAt`, `engagement`, `id` and `user` all absent it produces a
fully-populated Tweet whose `created_at` is the current time, whose
engagement metrics are all zero and whose `id` is the empty string; an
unparsable `createdAt` string likewise falls back to the current time; and
user normalization leaves `join_date` unset when `joinDate` is missing or
unparsable instead of failing. -/
theorem C7_lenient_normalization :
    (∀ (parseDate : String → Option Nat) (now : Nat)
       (fields : List (String × Json)) (s : String),
      fields.lookup "createdAt" = none →
      fields.lookup "engagement" = none →
      fields.lookup "id" = none →
      fields.lookup "user" = none →
      fields.lookup "text" = some (.str s) →
      ∃ t, normalize_tweet parseDate now (.obj fields) = .ok t ∧
        t.created_at = now ∧ t.engagement = ⟨0, 0, 0, 0⟩ ∧ t.id = .str "") ∧
    (∀ (parseDate : String → Option Nat) (now : Nat)
       (fields : List (String × Json)) (ds : String),
      parseDate ds = none →
      fields.lookup "createdAt" = some (.str ds) →
      fields.lookup "engagement" = none →
      fields.lookup "user" = none →
      fields.lookup "text" = none →
      ∃ t, normalize_tweet parseDate now (.obj fields) = .ok t ∧ t.created_at = now) ∧
    (∀ (parseDate : String → Option Nat) (ufields : List (String × Json)),
      ufields.lookup "joinDate" = none →
      ∃ p, normalize_user parseDate (.obj ufields) = .ok p ∧ p.join_date = none) ∧
    (∀ (parseDate : String → Option Nat) (ufields : List (String × Json)) (ds : String),
      parseDate ds = none →
      ufields.lookup "joinDate" = some (.str ds) →
      ∃ p, normalize_user parseDate (.obj ufields) = .ok p ∧ p.join_date = none) := by
  refine ⟨?_, ?_, ?_, ?_⟩
  · intro parseDate now fields s hc he hid hu ht
    have hmain := normalize_tweet_defaults parseDate now fields s hu he
      (by rw [ht]; rfl)
    refine ⟨_, hmain, ?_, rfl, ?_⟩
    · show (match fields.lookup "createdAt" with
        | some j =>
          if j.truthy then
            (match j with
             | .str ds => (parseDate ds).getD now
             | _ => now)
          else now
        | none => now) = now
      rw [hc]
    · show (fields.lookup "id").getD (.str "") = .str ""
      rw [hid]
      rfl
  · intro parseDate now fields ds hp hc he hu ht
    have hmain := normalize_tweet_defaults parseDate now fields "" hu he
      (by rw [ht]; rfl)
    refine ⟨_, hmain, ?_⟩
    show (match fields.lookup "createdAt" with
      | some j =>
        if j.truthy then
          (match j with
           | .str dss => (parseDate dss).getD now
           | _ => now)
        else now
      | none => now) = now
    rw [hc]
    show (if (Json.str ds).truthy = true then (parseDate ds).getD now else now) = now
    rw [hp]
    exact ite_self now
  · intro parseDate ufields hjd
    refine ⟨_, normalize_user_obj parseDate ufields, ?_⟩
    show (match ufields.lookup "joinDate" with
      | some (.str s) => parseDate s
      | some _ => none
      | none => none) = none
    rw [hjd]
  · intro parseDate ufields ds hp hjd
    refine ⟨_, normalize_user_obj parseDate ufields, ?_⟩
    show (match ufields.lookup "joinDate" with
      | some (.str s) => parseDate s
      | some _ => none
      | none => none) = none
    rw [hjd]
    exact hp

/-- Witness for C7 at concrete inputs: the empty post mapping and a mapping
with an unparsable date, against a parser that always fails. -/
theorem C7_lenient_normalization_witness :
    (∃ t, normalize_tweet (fun _ => none) 42 (.obj [("text", Json.str "hi")]) = .ok t ∧
      t.created_at = 42 ∧ t.engagement = ⟨0, 0, 0, 0⟩ ∧ t.id = .str "") ∧
    (∃ t, normalize_tweet (fun _ => none) 42 (.obj [("createdAt", Json.str "zzz")]) = .ok t ∧
      t.created_at = 42) ∧
    (∃ p, normalize_user (fun _ => none) (.obj []) = .ok p ∧ p.join_date = none) ∧
    (∃ p, normalize_user (fun _ => none) (.obj [("joinDate", Json.str "zzz")]) = .ok p ∧
      p.join_date = none) :=
  ⟨C7_lenient_normalization.1 (fun _ => none) 42 [("text", Json.str "hi")] "hi"
      rfl rfl rfl rfl rfl,
   C7_lenient_normalization.2.1 (fun _ => none) 42 [("createdAt", Json.str "zzz")] "zzz"
      rfl rfl rfl rfl rfl,
   C7_lenient_normalization.2.2.1 (fun _ => none) [] rfl,
   C7_lenient_normalization.2.2.2 (fun _ => none) [("joinDate", Json.str "zzz")] "zzz"
      rfl rfl⟩

/-- Looking up any key other than the head key skips the head entry. -/
theorem lookup_cons_of_key_ne {k a : String} {b : Json} {es : List (String × Json)}
    (h : (k == a) = false) : ((a, b) :: es).lookup k = es.lookup k := by
  simp [List.lookup, h]

/-- C8: the normalized tweet's content features are recomputed lexically
from the raw `text` and `media` values — `has_question` iff `"?"` occurs in
the text, `has_hashtags` iff `"#"`, `has_mentions` iff `"@"`, `has_links`
iff `"http"` occurs in the lower-cased text, and `has_media` iff the media
list is non-empty — and an upstream `features` field is never read: shadowing
it with any two values yields identical normalization results. -/
theorem C8_lexical_features :
    (∀ (parseDate : String → Option Nat) (now : Nat)
       (fields : List (String × Json)) (s : String) (t : Tweet),
      fields.lookup "text" = some (.str s) →
      normalize_tweet parseDate now (.obj fields) = .ok t →
      t.features.has_question = strContains s "?" ∧
      t.features.has_hashtags = strContains s "#" ∧
      t.features.has_mentions = strContains s "@" ∧
      t.features.has_links = strContains s.toLower "http" ∧
      t.features.has_media = ((fields.lookup "media").getD (.arr [])).truthy ∧
      (∀ ms, fields.lookup "media" = some (.arr ms) →
        t.features.has_media = !ms.isEmpty)) ∧
    (∀ (parseDate : String → Option Nat) (now : Nat)
       (fields : List (String × Json)) (f g : Json),
      normalize_tweet parseDate now (.obj (("features", f) :: fields))
        = normalize_tweet parseDate now (.obj (("features", g) :: fields))) := by
  constructor
  · intro parseDate now fields s t htext hok
    simp only [normalize_tweet] at hok
    split at hok
    · split at hok
      · simp only [htext, Option.getD_some] at hok
        injection hok with hrec
        subst hrec
        refine ⟨rfl, rfl, rfl, rfl, rfl, ?_⟩
        intro ms hms
        show ((fields.lookup "media").getD (.arr [])).truthy = !ms.isEmpty
        rw [hms]
        rfl
      · cases hok
      · cases hok
      · cases hok
    · cases hok
    · cases hok
    · cases hok
  · intro parseDate now fields f g
    have hl : ∀ (k : String), (k == "features") = false →
        ∀ (x : Json), (("features", x) :: fields).lookup k = fields.lookup k :=
      fun k h x => lookup_cons_of_key_ne h
    simp only [normalize_tweet,
      hl "user" (by decide), hl "engagement" (by decide), hl "createdAt" (by decide),
      hl "text" (by decide), hl "media" (by decide), hl "id" (by decide),
      hl "urls" (by decide), hl "hashtags" (by decide), hl "mentions" (by decide),
      hl "isRetweet" (by decide), hl "isReply" (by decide), hl "isThread" (by decide),
      hl "threadPosition" (by decide), hl "quotedTweet" (by decide),
      hl "retweetedTweet" (by decide)]

/-- Witness for C8 at a concrete post whose text has a question mark, a
hashtag, a mention and a link, with no media. -/
theorem C8_lexical_features_witness :
    (featuresOf "hi? #t @u see http" (Json.arr [])).has_question
      = strContains "hi? #t @u see http" "?" ∧
    (featuresOf "hi? #t @u see http" (Json.arr [])).has_hashtags
      = strContains "hi? #t @u see http" "#" ∧
    (featuresOf "hi? #t @u see http" (Json.arr [])).has_mentions
      = strContains "hi? #t @u see http" "@" ∧
    (featuresOf "hi? #t @u see http" (Json.arr [])).has_links
      = strContains (String.toLower "hi? #t @u see http") "http" := by
  have happ := C8_lexical_features.1 (fun _ => none) 0
    [("text", Json.str "hi? #t @u see http")] "hi? #t @u see http" _ rfl rfl
  exact ⟨happ.1, happ.2.1, happ.2.2.1, happ.2.2.2.1⟩

/-- C10: a raw post whose engagement sub-mapping carries a negative integer
for any of likes, retweets, replies or views makes normalization raise
`ValueError("Engagement metrics cannot be negative")` — from the
`EngagementMetrics` validation — and that exception propagates out of the
public timeline fetch instead of being defaulted away. -/
theorem C10_negative_engagement_raises :
    (∀ (efields : List (String × Json)) (l rt rp v : Int),
      efields.lookup "likes" = some (.num l) →
      efields.lookup "retweets" = some (.num rt) →
      efields.lookup "replies" = some (.num rp) →
      efields.lookup "views" = some (.num v) →
      (l < 0 ∨ rt < 0 ∨ rp < 0 ∨ v < 0) →
      normalize_engagement (.obj efields)
        = .valueError "Engagement metrics cannot be negative") ∧
    (∀ (parseDate : String → Option Nat) (now : Nat)
       (fields efields : List (String × Json)) (l : Int),
      fields.lookup "user" = none →
      fields.lookup "engagement" = some (.obj efields) →
      efields.lookup "likes" = some (.num l) →
      l < 0 →
      normalize_tweet parseDate now (.obj fields)
        = .valueError "Engagement metrics cannot be negative") ∧
    (∀ (parseDate : String → Option Nat) (now : Nat) (cookie_data : Option Json)
       (hs : Bool) (cfg : ApiConfig) (outcomes : Nat → AttemptOutcome)
       (data : Json) (fields efields : List (String × Json)) (l : Int),
      (make_request cookie_data hs cfg outcomes).result = .ok data →
      data.pyGet "data" (.arr []) = some (.arr [.obj fields]) →
      fields.lookup "user" = none →
      fields.lookup "engagement" = some (.obj efields) →
      efields.lookup "likes" = some (.num l) →
      l < 0 →
      get_timeline parseDate now cookie_data hs cfg outcomes
        = .valueError "Engagement metrics cannot be negative") := by
  have hneg : ∀ (efields : List (String × Json)) (l : Int),
      efields.lookup "likes" = some (.num l) → l < 0 →
      normalize_engagement (.obj efields)
        = .valueError "Engagement metrics cannot be negative" := by
    intro efields l hl hneg
    simp only [normalize_engagement, Json.pyGet, hl, Option.getD_some, checkNonNeg,
      Json.asNum, hneg, if_pos]
  have htweet : ∀ (parseDate : String → Option Nat) (now : Nat)
      (fields efields : List (String × Json)) (l : Int),
      fields.lookup "user" = none →
      fields.lookup "engagement" = some (.obj efields) →
      efields.lookup "likes" = some (.num l) →
      l < 0 →
      normalize_tweet parseDate now (.obj fields)
        = .valueError "Engagement metrics cannot be negative" := by
    intro parseDate now fields efields l hu he hl hlneg
    simp only [normalize_tweet, hu, he, Option.getD_none, Option.getD_some,
      normalize_user_empty, hneg efields l hl hlneg]
  refine ⟨?_, htweet, ?_⟩
  · intro efields l rt rp v hl hrt hrp hv hd
    by_cases h1 : l < 0
    · exact hneg efields l hl h1
    · by_cases h2 : rt < 0
      · simp only [normalize_engagement, Json.pyGet, hl, hrt, Option.getD_some, checkNonNeg,
          Json.asNum, h1, if_false, h2, if_pos]
      · by_cases h3 : rp < 0
        · simp only [normalize_engagement, Json.pyGet, hl, hrt, hrp, Option.getD_some,
            checkNonNeg, Json.asNum, h1, h2, if_false, h3, if_pos]
        · by_cases h4 : v < 0
          · simp only [normalize_engagement, Json.pyGet, hl, hrt, hrp, hv, Option.getD_some,
              checkNonNeg, Json.asNum, h1, h2, h3, if_false, h4, if_pos]
          · rcases hd with h | h | h | h
            · exact absurd h h1
            · exact absurd h h2
            · exact absurd h h3
            · exact absurd h h4
  · intro parseDate now cookie_data hs cfg outcomes data fields efields l
      hres hdata hu he hl hlneg
    unfold get_timeline
    rw [hres]
    show (match data.pyGet "data" (Json.arr []) with
      | some (.arr items) => normalize_tweet_list parseDate now items
      | some _ => PyResult.crash
      | none => PyResult.crash) = _
    rw [hdata]
    show normalize_tweet_list parseDate now [.obj fields] = _
    simp only [normalize_tweet_list, htweet parseDate now fields efields l hu he hl hlneg]

/-- Witness for C10: a successful timeline response carrying one post with
`likes = -1` makes `get_timeline` raise the negative-metrics `ValueError`,
and `_normalize_engagement` raises it on a fully-populated negative
engagement mapping. -/
theorem C10_negative_engagement_raises_witness :
    get_timeline (fun _ => none) 0
      (some (.obj [("cookieHeader", Json.str "x=y"),
        ("essentials", Json.obj [("auth_token", Json.str "a"), ("ct0", Json.str "b"),
          ("twid", Json.str "c"), ("guest_id", Json.str "d"), ("att", Json.str "e")])]))
      true ⟨3, 2⟩
      (fun _ => .response ⟨200,
        some (.obj [("success", Json.bool true),
          ("data", Json.arr [.obj [("engagement", Json.obj [("likes", Json.num (-1))])]])]),
        "OK", ""⟩)
      = .valueError "Engagement metrics cannot be negative" ∧
    normalize_engagement (.obj [("likes", Json.num (-1)), ("retweets", Json.num 0),
        ("replies", Json.num 0), ("views", Json.num 0)])
      = .valueError "Engagement metrics cannot be negative" :=
  ⟨C10_negative_engagement_raises.2.2 (fun _ => none) 0
      (some (.obj [("cookieHeader", Json.str "x=y"),
        ("essentials", Json.obj [("auth_token", Json.str "a"), ("ct0", Json.str "b"),
          ("twid", Json.str "c"), ("guest_id", Json.str "d"), ("att", Json.str "e")])]))
      true ⟨3, 2⟩
      (fun _ => .response ⟨200,
        some (.obj [("success", Json.bool true),
          ("data", Json.arr [.obj [("engagement", Json.obj [("likes", Json.num (-1))])]])]),
        "OK", ""⟩)
      (.obj [("success", Json.bool true),
        ("data", Json.arr [.obj [("engagement", Json.obj [("likes", Json.num (-1))])]])])
      [("engagement", Json.obj [("likes", Json.num (-1))])]
      [("likes", Json.num (-1))] (-1) rfl rfl rfl rfl rfl (by decide),
   C10_negative_engagement_raises.1
      [("likes", Json.num (-1)), ("retweets", Json.num 0),
       ("replies", Json.num 0), ("views", Json.num 0)]
      (-1) 0 0 0 rfl rfl rfl rfl (Or.inl (by decide))⟩
